import Mathlib

/-!
# Glyph cache and text layout of the two OpenGL demo programs

Shallow embedding of `chat.cpp` and `store.cpp`.

Conventions of the embedding:

* `float` values are rationals (`ℚ`).  `RenderTextF fl` is `RenderText` with
  the result of every float operation (conversion from an integer, product,
  sum, difference) passed through the rounding function `fl`; with
  `fl = roundToF32` this is the binary32 arithmetic of the code (round to
  nearest, ties to even, results beyond the largest finite float not
  modelled), with `fl = id` it is exact arithmetic.  `RenderText` itself is
  the exact-arithmetic reading, equal to `RenderTextF id`.
* `char` values are integers (`Int`); a `std::string` is a `List Int`.
* `unsigned int` values are naturals; `int` values are integers.  The only
  machine conversions that can change a value, `static_cast<unsigned int>` of
  the glyph advance and the `unsigned int → int` conversion of the bitmap
  dimensions inside `glm::ivec2`, are explicit (`toU32`, `toI32`).  The `int`
  subtraction `Size.y - Bearing.y` is taken without overflow (signed overflow
  is undefined in the source language).
* OpenGL calls are recorded, in program order, as a list of `GLCmd`.
  `glGetUniformLocation(p, name)` is folded into the uniform command, which
  carries the program and the uniform name.
* Object names handed out by `glGen*` come from a name generator
  `gen : List Nat → Nat` applied to the names of that kind currently in use.
* The GLSL of the rounded-rectangle fragment shader is written over an ordered
  field with the square root as a parameter; its properties are proved over
  the real numbers with `Real.sqrt`.
-/

namespace OpenGLUI

/-! ## Data model -/

/-- The `glm::ivec2` pair of `int`s. -/
structure IVec2 where
  x : Int
  y : Int
deriving DecidableEq, Repr

/-- The `glm::vec3` triple of `float`s. -/
structure Vec3 where
  x : ℚ
  y : ℚ
  z : ℚ
deriving DecidableEq

/-- The `struct Character` of both programs. -/
structure Character where
  TextureID : Nat
  Size : IVec2
  Bearing : IVec2
  Advance : Nat
deriving DecidableEq, Repr

/-- The value-initialised `Character` that `std::map::operator[]` inserts. -/
def Character.zero : Character :=
  { TextureID := 0, Size := ⟨0, 0⟩, Bearing := ⟨0, 0⟩, Advance := 0 }

/-- The `std::map<char, Character>`: its entries, in key order. -/
abbrev GlyphMap := List (Int × Character)

/-- The `std::map::find`: the entry stored under `k`, if any. -/
def GlyphMap.find : GlyphMap → Int → Option Character
  | [], _ => none
  | (k', v) :: rest, k => if k = k' then some v else GlyphMap.find rest k

/-- Places a new entry before the first entry with a larger key. -/
def GlyphMap.place : GlyphMap → Int → Character → GlyphMap
  | [], k, v => [(k, v)]
  | (k', v') :: rest, k, v =>
    if k < k' then (k, v) :: (k', v') :: rest
    else (k', v') :: GlyphMap.place rest k v

/-- The `std::map::insert`: an existing entry is kept, a new key is added. -/
def GlyphMap.insert (m : GlyphMap) (k : Int) (v : Character) : GlyphMap :=
  match m.find k with
  | some _ => m
  | none => m.place k v

/-- The `std::map::operator[]`: the entry under `k`; a missing key is first
inserted with a value-initialised `Character`. Returns the entry and the map
after the call. -/
def GlyphMap.index (m : GlyphMap) (k : Int) : Character × GlyphMap :=
  match m.find k with
  | some v => (v, m)
  | none => (Character.zero, m.place k Character.zero)

/-- The number of entries, `std::map::size`. -/
def GlyphMap.size (m : GlyphMap) : Nat := m.length

/-- The keys of the map, in order. -/
def GlyphMap.keys (m : GlyphMap) : List Int := m.map Prod.fst

/-- The entry a lookup through `operator[]` yields: the stored one, or the
value-initialised `Character` for a missing key. -/
def GlyphMap.glyph (m : GlyphMap) (k : Int) : Character :=
  (m.find k).getD Character.zero

/-! ## OpenGL commands -/

/-- Primitive modes used by the programs. -/
inductive DrawMode where
  | TRIANGLES
  | TRIANGLE_STRIP
deriving DecidableEq, Repr

/-- Buffer binding targets used by the programs. -/
inductive BufferTarget where
  | ARRAY_BUFFER
  | ELEMENT_ARRAY_BUFFER
deriving DecidableEq, Repr

/-- The OpenGL calls the modelled functions issue. -/
inductive GLCmd where
  | useProgram (program : Nat)
  | uniform1f (program : Nat) (name : String) (v0 : ℚ)
  | uniform2f (program : Nat) (name : String) (v0 v1 : ℚ)
  | uniform3f (program : Nat) (name : String) (v0 v1 v2 : ℚ)
  | uniformMatrix4fv (program : Nat) (name : String) (m : List ℚ)
  | activeTexture (unit : Nat)
  | genTextures (name : Nat)
  | genVertexArrays (name : Nat)
  | genBuffers (name : Nat)
  | bindVertexArray (vao : Nat)
  | bindTexture (texture : Nat)
  | bindBuffer (target : BufferTarget) (buffer : Nat)
  | texImage2D (width height : Nat) (pixels : List Nat)
  | texParameteri (pname : String) (param : String)
  | bufferData (target : BufferTarget) (data : List ℚ)
  | bufferSubData (target : BufferTarget) (offset : Nat) (data : List (List ℚ))
  | vertexAttribPointer (index size stride : Nat)
  | enableVertexAttribArray (index : Nat)
  | drawArrays (mode : DrawMode) (first count : Nat)
  | drawElements (mode : DrawMode) (count : Nat)
  | bufferIndexData (target : BufferTarget) (data : List Nat)
  | deleteVertexArrays (name : Nat)
  | deleteBuffers (name : Nat)
  | createShader (kind : String) (name : Nat)
  | shaderSource (shader : Nat) (source : String)
  | compileShader (shader : Nat)
  | createProgram (name : Nat)
  | attachShader (program shader : Nat)
  | linkProgram (program : Nat)
  | deleteShader (shader : Nat)
  | texImage2DFormat (format : Option String) (width height : Int) (pixels : List Nat)
  | generateMipmap
deriving DecidableEq

/-! ## RenderText -/

/-- The six vertices `vertices[6][4]` built for one glyph. -/
def quadVertices (xpos ypos w h : ℚ) : List (List ℚ) :=
  [ [xpos,     ypos + h, 0, 0],
    [xpos,     ypos,     0, 1],
    [xpos + w, ypos,     1, 1],
    [xpos,     ypos + h, 0, 0],
    [xpos + w, ypos,     1, 1],
    [xpos + w, ypos + h, 1, 0] ]

/-- What `RenderText` reads and writes while it runs: the global glyph map,
the local cursor `x`, and the OpenGL calls issued so far. -/
structure TextState where
  Characters : GlyphMap
  x : ℚ
  cmds : List GLCmd
deriving DecidableEq

/-- The OpenGL calls of one loop iteration of `RenderText`, for the glyph
`ch` with the cursor at `x`, in exact arithmetic: `glyphCmdsF id`. The
arithmetic of the code, which rounds to binary32, is `glyphCmdsF roundToF32`. -/
def glyphCmds (VBO : Nat) (ch : Character) (x y scale : ℚ) : List GLCmd :=
  let xpos := x + (ch.Bearing.x : ℚ) * scale
  let ypos := y - ((ch.Size.y - ch.Bearing.y : Int) : ℚ) * scale
  let w := (ch.Size.x : ℚ) * scale
  let h := (ch.Size.y : ℚ) * scale
  [ GLCmd.bindTexture ch.TextureID,
    GLCmd.bindBuffer BufferTarget.ARRAY_BUFFER VBO,
    GLCmd.bufferSubData BufferTarget.ARRAY_BUFFER 0 (quadVertices xpos ypos w h),
    GLCmd.bindBuffer BufferTarget.ARRAY_BUFFER 0,
    GLCmd.drawArrays DrawMode.TRIANGLES 0 6 ]

/-- One iteration of the character loop of `RenderText`, in exact arithmetic:
`renderCharF id`. The arithmetic of the code, which rounds to binary32, is
`renderCharF roundToF32`. -/
def renderChar (VBO : Nat) (y scale : ℚ) (st : TextState) (c : Int) : TextState :=
  let r := st.Characters.index c
  let ch := r.1
  { Characters := r.2,
    x := st.x + ((ch.Advance >>> 6 : Nat) : ℚ) * scale,
    cmds := st.cmds ++ glyphCmds VBO ch st.x y scale }

/-- The function `RenderText` (identical in both programs), in exact
arithmetic: `RenderTextF id`. `Characters`, `VAO` and `VBO` are the globals it
uses; the result holds the glyph map after the call, the cursor `x` at the end
of the loop and the calls issued. The glyph map, the number, order and kind of
the calls and the textures bound do not depend on the rounding; the values of
the cursor and of the vertices in the arithmetic of the code are those of
`RenderTextF roundToF32`. -/
def RenderText (Characters : GlyphMap) (VAO VBO : Nat) (shader : Nat) (text : List Int)
    (x y scale : ℚ) (color : Vec3) : TextState :=
  let st0 : TextState :=
    { Characters := Characters,
      x := x,
      cmds := [ GLCmd.useProgram shader,
                GLCmd.uniform3f shader "textColor" color.x color.y color.z,
                GLCmd.activeTexture 0,
                GLCmd.bindVertexArray VAO ] }
  let st1 := text.foldl (renderChar VBO y scale) st0
  { st1 with cmds := st1.cmds ++ [GLCmd.bindVertexArray 0, GLCmd.bindTexture 0] }

/-! ## Reading draw calls off a command list -/

/-- A draw call as the GL sees it: the texture bound and the vertex data last
streamed into the shared buffer when `glDrawArrays` is issued. -/
structure DrawCall where
  texture : Nat
  vertices : List (List ℚ)
  mode : DrawMode
  first : Nat
  count : Nat
deriving DecidableEq

/-- The part of the GL state a draw call depends on, and the draws so far. -/
structure Replay where
  boundTexture : Nat
  streamed : List (List ℚ)
  draws : List DrawCall
deriving DecidableEq

/-- Effect of one call on `Replay`. -/
def replayStep (r : Replay) : GLCmd → Replay
  | GLCmd.bindTexture t => { r with boundTexture := t }
  | GLCmd.bufferSubData _ _ d => { r with streamed := d }
  | GLCmd.drawArrays m f n =>
    { r with draws := r.draws ++ [⟨r.boundTexture, r.streamed, m, f, n⟩] }
  | _ => r

/-- The draw calls of a command list, in order. -/
def drawCalls (cmds : List GLCmd) : List DrawCall :=
  (cmds.foldl replayStep ⟨0, [], []⟩).draws

/-- The cursor before the `k`-th character: the start plus the advances of the
characters before it. -/
def cursorAt (m : GlyphMap) (text : List Int) (x0 scale : ℚ) (k : Nat) : ℚ :=
  x0 + ((text.take k).map (fun c => (((m.glyph c).Advance >>> 6 : Nat) : ℚ) * scale)).sum

/-! ## The glyph-loading loop of `main` -/

/-- Conversion of an `unsigned int` to `int` (two's complement, 32 bits), as
done by the `glm::ivec2` constructor. -/
def toI32 (n : Nat) : Int :=
  if n % 2 ^ 32 < 2 ^ 31 then ((n % 2 ^ 32 : Nat) : Int) else ((n % 2 ^ 32 : Nat) : Int) - 2 ^ 32

/-- The `static_cast<unsigned int>` of a signed value. -/
def toU32 (i : Int) : Nat := (i % 2 ^ 32).toNat

/-- Conversion of the `unsigned char` loop counter to the `char` key. -/
def toChar (c : Nat) : Int :=
  if c % 256 < 128 then ((c % 256 : Nat) : Int) else ((c % 256 : Nat) : Int) - 256

/-- The fields of `face->glyph` the loop reads after a successful
`FT_Load_Char`. -/
structure FT_GlyphSlot where
  bitmap_width : Nat
  bitmap_rows : Nat
  bitmap_buffer : List Nat
  bitmap_left : Int
  bitmap_top : Int
  advance_x : Int
deriving DecidableEq, Repr

/-- The font face as the loop uses it: `FT_Load_Char(face, c, FT_LOAD_RENDER)`
either fails (`none`, a non-zero error code) or fills the glyph slot. -/
abbrev FT_Face := Nat → Option FT_GlyphSlot

/-- What the loading loop reads and writes: the global glyph map, the texture
names in use, the OpenGL calls issued and the lines written to `std::cerr`. -/
structure LoadState where
  Characters : GlyphMap
  textures : List Nat
  cmds : List GLCmd
  errs : List String
deriving DecidableEq

/-- The `Character` built from a glyph slot and its texture name. -/
def mkCharacter (texture : Nat) (g : FT_GlyphSlot) : Character :=
  { TextureID := texture,
    Size := ⟨toI32 g.bitmap_width, toI32 g.bitmap_rows⟩,
    Bearing := ⟨g.bitmap_left, g.bitmap_top⟩,
    Advance := toU32 g.advance_x }

/-- The OpenGL calls of one successful iteration of the loading loop. -/
def textureCmds (texture : Nat) (g : FT_GlyphSlot) : List GLCmd :=
  [ GLCmd.genTextures texture,
    GLCmd.bindTexture texture,
    GLCmd.texImage2D g.bitmap_width g.bitmap_rows g.bitmap_buffer,
    GLCmd.texParameteri "GL_TEXTURE_WRAP_S" "GL_CLAMP_TO_EDGE",
    GLCmd.texParameteri "GL_TEXTURE_WRAP_T" "GL_CLAMP_TO_EDGE",
    GLCmd.texParameteri "GL_TEXTURE_MIN_FILTER" "GL_LINEAR",
    GLCmd.texParameteri "GL_TEXTURE_MAG_FILTER" "GL_LINEAR" ]

/-- One iteration of `for (unsigned char c = 0; c < 128; c++)`. -/
def loadGlyph (face : FT_Face) (gen : List Nat → Nat) (st : LoadState) (c : Nat) : LoadState :=
  match face c with
  | none => { st with errs := st.errs ++ ["ERROR::FREETYTPE: Failed to load Glyph"] }
  | some g =>
    let texture := gen st.textures
    { Characters := st.Characters.insert (toChar c) (mkCharacter texture g),
      textures := st.textures ++ [texture],
      cmds := st.cmds ++ textureCmds texture g,
      errs := st.errs }

/-- The state after the iterations for the codes `0, …, n - 1`. -/
def loadGlyphs (face : FT_Face) (gen : List Nat → Nat) (st : LoadState) (n : Nat) : LoadState :=
  (List.range n).foldl (loadGlyph face gen) st

/-- The state in which the loop starts: an empty glyph map and nothing logged;
`textures` are the texture names already in use. -/
def LoadState.start (textures : List Nat) : LoadState :=
  { Characters := [], textures := textures, cmds := [], errs := [] }

/-- The whole loading loop, from the empty glyph map. -/
def loadAllGlyphs (face : FT_Face) (gen : List Nat → Nat) (textures : List Nat) : LoadState :=
  loadGlyphs face gen (LoadState.start textures) 128

/-- The codes below `n` whose rasterisation succeeds. -/
def rasterized (face : FT_Face) (n : Nat) : List Nat :=
  (List.range n).filter (fun c => (face c).isSome)

/-! ## Screen constants and GL object names -/

/-- The constant `SCR_WIDTH`. -/
def SCR_WIDTH : Nat := 1200

/-- The constant `SCR_HEIGHT`. -/
def SCR_HEIGHT : Nat := 768

/-- The matrix `glm::ortho(left, right, bottom, top)`, column-major. -/
def ortho (left right bottom top : ℚ) : List ℚ :=
  [ 2 / (right - left), 0, 0, 0,
    0, 2 / (top - bottom), 0, 0,
    0, 0, -1, 0,
    -(right + left) / (right - left), -(top + bottom) / (top - bottom), 0, 1 ]

/-- The vertex-array and buffer names currently in use. -/
structure GLObjects where
  vertexArrays : List Nat
  buffers : List Nat
deriving DecidableEq, Repr

/-- A name generator that hands out one more than the largest name in use. -/
def seqGen (used : List Nat) : Nat := used.foldl max 0 + 1

/-- The uniform values of a command list: name and components of every
`glUniform*` call, in order. -/
def uniformValues : List GLCmd → List (String × List ℚ)
  | [] => []
  | GLCmd.uniform1f _ n a :: rest => (n, [a]) :: uniformValues rest
  | GLCmd.uniform2f _ n a b :: rest => (n, [a, b]) :: uniformValues rest
  | GLCmd.uniform3f _ n a b c :: rest => (n, [a, b, c]) :: uniformValues rest
  | GLCmd.uniformMatrix4fv _ n m :: rest => (n, m) :: uniformValues rest
  | _ :: rest => uniformValues rest

/-- The draw commands of a command list, in order. -/
def drawCommands : List GLCmd → List GLCmd
  | [] => []
  | GLCmd.drawArrays m f n :: rest => GLCmd.drawArrays m f n :: drawCommands rest
  | GLCmd.drawElements m n :: rest => GLCmd.drawElements m n :: drawCommands rest
  | _ :: rest => drawCommands rest

/-! ## The chat program: CreateShaderProgram and the rounded rectangle -/

namespace Chat

/-- What the GL answers while `CreateShaderProgram` runs: the names returned by
`glCreateShader` and `glCreateProgram`, and the compile and link statuses. -/
structure ShaderBuild where
  vertexShader : Nat
  fragmentShader : Nat
  shaderProgram : Nat
  vertexOk : Bool
  fragmentOk : Bool
  linkOk : Bool
deriving DecidableEq, Repr

/-- Result of `CreateShaderProgram`: the returned handle, the calls issued and
the lines written to `std::cerr` (without the driver's info log). -/
structure ShaderResult where
  handle : Nat
  cmds : List GLCmd
  errs : List String
deriving DecidableEq

/-- The calls `CreateShaderProgram` issues before its status checks. -/
def buildCmds (vsrc fsrc : String) (b : ShaderBuild) : List GLCmd :=
  [ GLCmd.createShader "GL_VERTEX_SHADER" b.vertexShader,
    GLCmd.shaderSource b.vertexShader vsrc,
    GLCmd.compileShader b.vertexShader,
    GLCmd.createShader "GL_FRAGMENT_SHADER" b.fragmentShader,
    GLCmd.shaderSource b.fragmentShader fsrc,
    GLCmd.compileShader b.fragmentShader,
    GLCmd.createProgram b.shaderProgram,
    GLCmd.attachShader b.shaderProgram b.vertexShader,
    GLCmd.attachShader b.shaderProgram b.fragmentShader,
    GLCmd.linkProgram b.shaderProgram,
    GLCmd.deleteShader b.vertexShader,
    GLCmd.deleteShader b.fragmentShader ]

/-- The function `CreateShaderProgram` of `chat.cpp`. -/
def CreateShaderProgram (vsrc fsrc : String) (b : ShaderBuild) : ShaderResult :=
  let e1 := if b.vertexOk then [] else ["Vertex shader compilation failed:"]
  let e2 := if b.fragmentOk then [] else ["Fragment shader compilation failed:"]
  let e3 := if b.linkOk then [] else ["Shader program linking failed:"]
  let errs := e1 ++ e2 ++ e3
  let cmds := buildCmds vsrc fsrc b
  if !b.vertexOk then
    ⟨0, cmds, errs ++ ["VERTEX SHADER COMPILATION FAILED:"]⟩
  else if !b.fragmentOk then
    ⟨0, cmds, errs ++ ["FRAGMENT SHADER COMPILATION FAILED:"]⟩
  else if !b.linkOk then
    ⟨0, cmds, errs ++ ["SHADER PROGRAM LINKING FAILED:"]⟩
  else
    ⟨b.shaderProgram, cmds, errs⟩

/-- The globals `roundedRectShader`, `roundedRectVAO`, `roundedRectVBO`. -/
structure Renderer where
  roundedRectShader : Nat
  roundedRectVAO : Nat
  roundedRectVBO : Nat
deriving DecidableEq, Repr

/-- The initial values of the three globals. -/
def Renderer.initial : Renderer := ⟨0, 0, 0⟩

/-- Outcome of a call: the globals and the names in use afterwards, the calls
issued, the lines written to `std::cerr`, and how often
`InitializeRoundedRectRenderer` ran. -/
structure Outcome where
  renderer : Renderer
  objects : GLObjects
  cmds : List GLCmd
  errs : List String
  inits : Nat
deriving DecidableEq

/-- The function `InitializeRoundedRectRenderer`. -/
def InitializeRoundedRectRenderer (gen : List Nat → Nat) (b : ShaderBuild)
    (objs : GLObjects) : Outcome :=
  let sh := CreateShaderProgram "roundedRectVertexShader" "roundedRectFragmentShader" b
  let vertices : List ℚ := [-1, -1, 1, -1, -1, 1, 1, 1]
  let vao := gen objs.vertexArrays
  let vbo := gen objs.buffers
  { renderer := ⟨sh.handle, vao, vbo⟩,
    objects := ⟨objs.vertexArrays ++ [vao], objs.buffers ++ [vbo]⟩,
    cmds := sh.cmds ++
      [ GLCmd.genVertexArrays vao,
        GLCmd.genBuffers vbo,
        GLCmd.bindVertexArray vao,
        GLCmd.bindBuffer BufferTarget.ARRAY_BUFFER vbo,
        GLCmd.bufferData BufferTarget.ARRAY_BUFFER vertices,
        GLCmd.vertexAttribPointer 0 2 8,
        GLCmd.enableVertexAttribArray 0,
        GLCmd.bindBuffer BufferTarget.ARRAY_BUFFER 0,
        GLCmd.bindVertexArray 0 ],
    errs := sh.errs,
    inits := 1 }

/-- The calls of `RenderRoundedRect` after the lazy initialisation. -/
def roundedRectCmds (r : Renderer) (x y width height radius : ℚ) (color : Vec3) :
    List GLCmd :=
  [ GLCmd.useProgram r.roundedRectShader,
    GLCmd.uniformMatrix4fv r.roundedRectShader "projection"
      (ortho 0 (SCR_WIDTH : ℚ) 0 (SCR_HEIGHT : ℚ)),
    GLCmd.uniform2f r.roundedRectShader "uPosition" x y,
    GLCmd.uniform2f r.roundedRectShader "uSize" width height,
    GLCmd.uniform1f r.roundedRectShader "uRadius" radius,
    GLCmd.uniform3f r.roundedRectShader "uColor" color.x color.y color.z,
    GLCmd.uniform2f r.roundedRectShader "uScreenSize" (SCR_WIDTH : ℚ) (SCR_HEIGHT : ℚ),
    GLCmd.bindVertexArray r.roundedRectVAO,
    GLCmd.drawArrays DrawMode.TRIANGLE_STRIP 0 4,
    GLCmd.bindVertexArray 0 ]

/-- The function `RenderRoundedRect` of `chat.cpp`. `b` is what the GL would
answer to a shader build during this call. -/
def RenderRoundedRect (gen : List Nat → Nat) (b : ShaderBuild) (r : Renderer)
    (objs : GLObjects) (x y width height radius : ℚ) (color : Vec3) : Outcome :=
  let o : Outcome :=
    if r.roundedRectShader = 0 then InitializeRoundedRectRenderer gen b objs
    else ⟨r, objs, [], [], 0⟩
  { o with cmds := o.cmds ++ roundedRectCmds o.renderer x y width height radius color }

end Chat

/-! ## The product-grid program: RenderRect and the rounded rectangle -/

namespace Store

/-- Outcome of a call: the names in use afterwards and the calls issued. -/
structure Outcome where
  objects : GLObjects
  cmds : List GLCmd
deriving DecidableEq

/-- The function `RenderRect` of `store.cpp`; `rectShaderProgram` is the
global it uses. -/
def RenderRect (gen : List Nat → Nat) (rectShaderProgram : Nat) (objs : GLObjects)
    (x y width height : ℚ) (color : Vec3) : Outcome :=
  let vertices : List ℚ := [x, y, x, y + height, x + width, y + height, x + width, y]
  let indices : List Nat := [0, 1, 2, 0, 2, 3]
  let rectVAO := gen objs.vertexArrays
  let rectVBO := gen objs.buffers
  let rectEBO := gen (objs.buffers ++ [rectVBO])
  { objects :=
      ⟨(objs.vertexArrays ++ [rectVAO]).erase rectVAO,
       ((objs.buffers ++ [rectVBO] ++ [rectEBO]).erase rectVBO).erase rectEBO⟩,
    cmds :=
      [ GLCmd.useProgram rectShaderProgram,
        GLCmd.uniform3f rectShaderProgram "color" color.x color.y color.z,
        GLCmd.genVertexArrays rectVAO,
        GLCmd.genBuffers rectVBO,
        GLCmd.genBuffers rectEBO,
        GLCmd.bindVertexArray rectVAO,
        GLCmd.bindBuffer BufferTarget.ARRAY_BUFFER rectVBO,
        GLCmd.bufferData BufferTarget.ARRAY_BUFFER vertices,
        GLCmd.bindBuffer BufferTarget.ELEMENT_ARRAY_BUFFER rectEBO,
        GLCmd.bufferIndexData BufferTarget.ELEMENT_ARRAY_BUFFER indices,
        GLCmd.vertexAttribPointer 0 2 8,
        GLCmd.enableVertexAttribArray 0,
        GLCmd.drawElements DrawMode.TRIANGLES 6,
        GLCmd.deleteVertexArrays rectVAO,
        GLCmd.deleteBuffers rectVBO,
        GLCmd.deleteBuffers rectEBO ] }

/-- The function `RenderRoundedRect` of `store.cpp`: a plain rectangle. -/
def RenderRoundedRect (gen : List Nat → Nat) (rectShaderProgram : Nat) (objs : GLObjects)
    (x y width height _radius : ℚ) (color : Vec3) : Outcome :=
  RenderRect gen rectShaderProgram objs x y width height color

end Store

/-! ## Closed forms used to state the layout properties -/

/-- The cursor advance of one character: `(Advance >> 6) * scale` of the glyph
the lookup yields. -/
def advance (m : GlyphMap) (scale : ℚ) (c : Int) : ℚ :=
  (((m.glyph c).Advance >>> 6 : Nat) : ℚ) * scale

/-- The calls of the character loop for `text`, every glyph taken from `m`. -/
def textCmds (VBO : Nat) (m : GlyphMap) (y scale : ℚ) : List Int → ℚ → List GLCmd
  | [], _ => []
  | c :: cs, x =>
    glyphCmds VBO (m.glyph c) x y scale ++ textCmds VBO m y scale cs (x + advance m scale c)

/-- The draw call for the glyph `ch` with the cursor at `x`. -/
def glyphDraw (ch : Character) (x y scale : ℚ) : DrawCall :=
  { texture := ch.TextureID,
    vertices := quadVertices (x + (ch.Bearing.x : ℚ) * scale)
      (y - ((ch.Size.y - ch.Bearing.y : Int) : ℚ) * scale)
      ((ch.Size.x : ℚ) * scale) ((ch.Size.y : ℚ) * scale),
    mode := DrawMode.TRIANGLES,
    first := 0,
    count := 6 }

/-- The draw calls of the character loop for `text`, every glyph taken from `m`. -/
def textDraws (m : GlyphMap) (y scale : ℚ) : List Int → ℚ → List DrawCall
  | [], _ => []
  | c :: cs, x => glyphDraw (m.glyph c) x y scale :: textDraws m y scale cs (x + advance m scale c)

/-- Two glyph maps that differ at most in the `Size` and `Bearing` of their
entries: same keys, and under every key the same texture and advance. -/
def sameButSizeBearing (m m' : GlyphMap) : Prop :=
  ∀ c : Int, (m.find c).map (fun ch => (ch.TextureID, ch.Advance))
    = (m'.find c).map (fun ch => (ch.TextureID, ch.Advance))

/-! ## Concrete inputs used in examples -/

/-- A font face in which only the code 65 rasterises. -/
def faceOnlyA : FT_Face := fun c =>
  if c = 65 then some ⟨30, 34, [], 1, 33, 2048⟩ else none

/-- A shader build whose vertex shader fails to compile. -/
def Chat.failedBuild : Chat.ShaderBuild := ⟨1, 2, 3, false, true, true⟩

/-- A later shader build of the same sources, failing in the same way. -/
def Chat.failedBuildAgain : Chat.ShaderBuild := ⟨4, 5, 6, false, true, true⟩

/-- A shader build in which both shaders compile and the program links. -/
def Chat.goodBuild : Chat.ShaderBuild := ⟨1, 2, 3, true, true, true⟩

/-! ## RenderRect and RenderTexture (identical in both programs) -/

/-- The function `RenderRect` of `chat.cpp`, the same text as in `store.cpp`. -/
def Chat.RenderRect (gen : List Nat → Nat) (rectShaderProgram : Nat) (objs : GLObjects)
    (x y width height : ℚ) (color : Vec3) : Store.Outcome :=
  Store.RenderRect gen rectShaderProgram objs x y width height color

/-- The overload `RenderTexture(textureShader, texture, x, y, width, height)`;
the global `projection` is `glm::ortho(0, SCR_WIDTH, 0, SCR_HEIGHT)`. -/
def RenderTexture (gen : List Nat → Nat) (objs : GLObjects) (textureShader texture : Nat)
    (x y width height : ℚ) : Store.Outcome :=
  let vertices : List ℚ :=
    [ x, y, 0, 1,
      x, y + height, 0, 0,
      x + width, y + height, 1, 0,
      x + width, y, 1, 1 ]
  let indices : List Nat := [0, 1, 2, 0, 2, 3]
  let VAO := gen objs.vertexArrays
  let VBO := gen objs.buffers
  let EBO := gen (objs.buffers ++ [VBO])
  { objects :=
      ⟨(objs.vertexArrays ++ [VAO]).erase VAO,
       ((objs.buffers ++ [VBO] ++ [EBO]).erase VBO).erase EBO⟩,
    cmds :=
      [ GLCmd.useProgram textureShader,
        GLCmd.uniformMatrix4fv textureShader "projection"
          (ortho 0 (SCR_WIDTH : ℚ) 0 (SCR_HEIGHT : ℚ)),
        GLCmd.genVertexArrays VAO,
        GLCmd.genBuffers VBO,
        GLCmd.genBuffers EBO,
        GLCmd.bindVertexArray VAO,
        GLCmd.bindBuffer BufferTarget.ARRAY_BUFFER VBO,
        GLCmd.bufferData BufferTarget.ARRAY_BUFFER vertices,
        GLCmd.bindBuffer BufferTarget.ELEMENT_ARRAY_BUFFER EBO,
        GLCmd.bufferIndexData BufferTarget.ELEMENT_ARRAY_BUFFER indices,
        GLCmd.vertexAttribPointer 0 4 16,
        GLCmd.enableVertexAttribArray 0,
        GLCmd.activeTexture 0,
        GLCmd.bindTexture texture,
        GLCmd.drawElements DrawMode.TRIANGLES 6,
        GLCmd.deleteVertexArrays VAO,
        GLCmd.deleteBuffers VBO,
        GLCmd.deleteBuffers EBO ] }

/-- The overload `RenderTexture(texture, x, y, width, height)`, which draws
with the global `rectShaderProgram`. -/
def RenderTextureRect (gen : List Nat → Nat) (rectShaderProgram : Nat) (objs : GLObjects)
    (texture : Nat) (x y width height : ℚ) : Store.Outcome :=
  let vertices : List ℚ :=
    [ x, y, 0, 0,
      x, y + height, 0, 1,
      x + width, y + height, 1, 1,
      x + width, y, 1, 0 ]
  let indices : List Nat := [0, 1, 2, 0, 2, 3]
  let texVAO := gen objs.vertexArrays
  let texVBO := gen objs.buffers
  let texEBO := gen (objs.buffers ++ [texVBO])
  { objects :=
      ⟨(objs.vertexArrays ++ [texVAO]).erase texVAO,
       ((objs.buffers ++ [texVBO] ++ [texEBO]).erase texVBO).erase texEBO⟩,
    cmds :=
      [ GLCmd.useProgram rectShaderProgram,
        GLCmd.uniform3f rectShaderProgram "color" 1 1 1,
        GLCmd.genVertexArrays texVAO,
        GLCmd.genBuffers texVBO,
        GLCmd.genBuffers texEBO,
        GLCmd.bindVertexArray texVAO,
        GLCmd.bindBuffer BufferTarget.ARRAY_BUFFER texVBO,
        GLCmd.bufferData BufferTarget.ARRAY_BUFFER vertices,
        GLCmd.bindBuffer BufferTarget.ELEMENT_ARRAY_BUFFER texEBO,
        GLCmd.bufferIndexData BufferTarget.ELEMENT_ARRAY_BUFFER indices,
        GLCmd.vertexAttribPointer 0 4 16,
        GLCmd.enableVertexAttribArray 0,
        GLCmd.activeTexture 0,
        GLCmd.bindTexture texture,
        GLCmd.drawElements DrawMode.TRIANGLES 6,
        GLCmd.deleteVertexArrays texVAO,
        GLCmd.deleteBuffers texVBO,
        GLCmd.deleteBuffers texEBO ] }

/-! ## Live vertex arrays and buffers -/

/-- Effect of one call on the vertex-array and buffer names in use:
`glGen*` adds the generated name, `glDelete*` removes the deleted one. -/
def trackStep (o : GLObjects) : GLCmd → GLObjects
  | GLCmd.genVertexArrays n => { o with vertexArrays := o.vertexArrays ++ [n] }
  | GLCmd.genBuffers n => { o with buffers := o.buffers ++ [n] }
  | GLCmd.deleteVertexArrays n => { o with vertexArrays := o.vertexArrays.erase n }
  | GLCmd.deleteBuffers n => { o with buffers := o.buffers.erase n }
  | _ => o

/-- The names in use after a command list has run. -/
def trackObjects (o : GLObjects) (cmds : List GLCmd) : GLObjects :=
  cmds.foldl trackStep o

/-- The vertex arrays a command list generates, in order. -/
def generatedVertexArrays : List GLCmd → List Nat
  | [] => []
  | GLCmd.genVertexArrays n :: rest => n :: generatedVertexArrays rest
  | _ :: rest => generatedVertexArrays rest

/-- The buffers a command list generates, in order. -/
def generatedBuffers : List GLCmd → List Nat
  | [] => []
  | GLCmd.genBuffers n :: rest => n :: generatedBuffers rest
  | _ :: rest => generatedBuffers rest

/-- The vertex arrays a command list deletes, in order. -/
def deletedVertexArrays : List GLCmd → List Nat
  | [] => []
  | GLCmd.deleteVertexArrays n :: rest => n :: deletedVertexArrays rest
  | _ :: rest => deletedVertexArrays rest

/-- The buffers a command list deletes, in order. -/
def deletedBuffers : List GLCmd → List Nat
  | [] => []
  | GLCmd.deleteBuffers n :: rest => n :: deletedBuffers rest
  | _ :: rest => deletedBuffers rest

/-- A name generator as the GL specifies it: the name it hands out is not in
use. -/
def FreshGen (gen : List Nat → Nat) : Prop := ∀ used : List Nat, gen used ∉ used

/-- A call with outcome `o`, started with the names `objs` in use, creates
exactly the vertex array `a` and the buffers `b` and `e`, deletes exactly
those three, and leaves the names in use as they were. -/
def CreatesAndDeletes (objs : GLObjects) (o : Store.Outcome) (a b e : Nat) : Prop :=
  generatedVertexArrays o.cmds = [a] ∧ generatedBuffers o.cmds = [b, e] ∧
  deletedVertexArrays o.cmds = [a] ∧ deletedBuffers o.cmds = [b, e] ∧
  trackObjects objs o.cmds = objs ∧ o.objects = objs

/-! ## LoadTexture (identical in both programs) -/

/-- What `stbi_load` returns for a decodable image file. -/
structure Image where
  width : Int
  height : Int
  nrComponents : Int
  data : List Nat
deriving DecidableEq, Repr

/-- The `format` chosen in `LoadTexture`; for a channel count other than 1, 3
and 4 the variable is never assigned (`none`). -/
def selectFormat (nrComponents : Int) : Option String :=
  if nrComponents = 1 then some "GL_RED"
  else if nrComponents = 3 then some "GL_RGB"
  else if nrComponents = 4 then some "GL_RGBA"
  else none

/-- Result of `LoadTexture`: the returned handle, the texture names in use
afterwards, the calls issued and the lines written to `std::cerr`. -/
structure TextureLoad where
  handle : Nat
  textures : List Nat
  cmds : List GLCmd
  errs : List String
deriving DecidableEq

/-- The function `LoadTexture`. `loaded` is what `stbi_load(path, …)` returns:
`none` for a null pointer (the file could not be loaded). -/
def LoadTexture (gen : List Nat → Nat) (textures : List Nat) (path : String)
    (loaded : Option Image) : TextureLoad :=
  let textureID := gen textures
  match loaded with
  | some img =>
    { handle := textureID,
      textures := textures ++ [textureID],
      cmds :=
        [ GLCmd.genTextures textureID,
          GLCmd.bindTexture textureID,
          GLCmd.texImage2DFormat (selectFormat img.nrComponents) img.width img.height img.data,
          GLCmd.generateMipmap,
          GLCmd.texParameteri "GL_TEXTURE_WRAP_S" "GL_CLAMP_TO_EDGE",
          GLCmd.texParameteri "GL_TEXTURE_WRAP_T" "GL_CLAMP_TO_EDGE",
          GLCmd.texParameteri "GL_TEXTURE_MIN_FILTER" "GL_LINEAR_MIPMAP_LINEAR",
          GLCmd.texParameteri "GL_TEXTURE_MAG_FILTER" "GL_LINEAR" ],
      errs := [] }
  | none =>
    { handle := textureID,
      textures := textures ++ [textureID],
      cmds := [GLCmd.genTextures textureID],
      errs := ["Texture failed to load at path: " ++ path] }

/-! ## Sequences of RenderRoundedRect calls (chat program) -/

/-- The arguments of one `RenderRoundedRect` call. -/
structure RectArgs where
  x : ℚ
  y : ℚ
  width : ℚ
  height : ℚ
  radius : ℚ
  color : Vec3
deriving DecidableEq

/-- Runs a sequence of `RenderRoundedRect` calls, each with the answer the GL
would give to a shader build during that call, threading the globals and the
names in use; returns, per call, how often `InitializeRoundedRectRenderer`
ran. -/
def Chat.initsOfCalls (gen : List Nat → Nat) :
    List (Chat.ShaderBuild × RectArgs) → Chat.Renderer → GLObjects → List Nat
  | [], _, _ => []
  | (b, a) :: rest, r, objs =>
    let o := Chat.RenderRoundedRect gen b r objs a.x a.y a.width a.height a.radius a.color
    o.inits :: Chat.initsOfCalls gen rest o.renderer o.objects

/-! ## The function main -/

/-- What the environment answers to the startup steps of `main`: whether
`glfwInit`, `glfwCreateWindow`, `gladLoadGLLoader`, `FT_Init_FreeType` and
`FT_New_Face` succeed. -/
structure Startup where
  glfwInit : Bool
  glfwCreateWindow : Bool
  gladLoadGLLoader : Bool
  FT_Init_FreeType : Bool
  FT_New_Face : Bool
deriving DecidableEq, Repr

/-- A run of `main` against a finite trace of the environment: the value
returned (`none` when the render loop is still running at the end of the
trace), the number of frames rendered, the lines written to `std::cerr` by
the statements of `main` (its startup checks and its glyph-loading loop; the
lines written inside callees such as `LoadTexture` are not included), and
whether `glfwTerminate` was called. -/
structure MainRun where
  exit : Option Int
  frames : Nat
  errs : List String
  glfwTerminate : Bool
deriving DecidableEq, Repr

/-- The loop `while (!glfwWindowShouldClose(window))`: `answers` are the
successive values of `glfwWindowShouldClose`, `n` the frames rendered so far.
Returns the number of frames rendered when the loop ends, or `none` when the
answers run out while the loop is still running. -/
def renderLoop : List Bool → Nat → Option Nat
  | [], _ => none
  | true :: _, n => some n
  | false :: answers, n => renderLoop answers (n + 1)

/-- The function `main` of `chat.cpp`: the startup steps, the glyph-loading
loop (run on the loaded `face`, with no texture name in use yet), the render
loop and the return value. -/
def Chat.main (face : FT_Face) (gen : List Nat → Nat) (s : Startup)
    (shouldClose : List Bool) : MainRun :=
  if !s.glfwInit then
    ⟨some (-1), 0, ["Failed to initialize GLFW"], false⟩
  else if !s.glfwCreateWindow then
    ⟨some (-1), 0, ["Failed to create GLFW window"], true⟩
  else if !s.gladLoadGLLoader then
    ⟨some (-1), 0, ["Failed to initialize GLAD"], false⟩
  else if !s.FT_Init_FreeType then
    ⟨some (-1), 0, ["ERROR::FREETYPE: Could not init FreeType Library"], false⟩
  else if !s.FT_New_Face then
    ⟨some (-1), 0, ["ERROR::FREETYPE: Failed to load font"], false⟩
  else
    match renderLoop shouldClose 0 with
    | some n => ⟨some 0, n, (loadAllGlyphs face gen []).errs, true⟩
    | none => ⟨none, shouldClose.length, (loadAllGlyphs face gen []).errs, false⟩

/-- The function `main` of `store.cpp`: the startup steps, the glyph-loading
loop (run on the loaded `face`, with no texture name in use yet), the render
loop and the return value. -/
def Store.main (face : FT_Face) (gen : List Nat → Nat) (s : Startup)
    (shouldClose : List Bool) : MainRun :=
  if !s.glfwInit then
    ⟨some (-1), 0, ["Failed to initialize GLFW"], false⟩
  else if !s.glfwCreateWindow then
    ⟨some (-1), 0, ["Failed to create GLFW window"], true⟩
  else if !s.gladLoadGLLoader then
    ⟨some (-1), 0, ["Failed to initialize GLAD"], false⟩
  else if !s.FT_Init_FreeType then
    ⟨some (-1), 0, ["ERROR::FREETYPE: Could not init FreeType Library"], false⟩
  else if !s.FT_New_Face then
    ⟨some (-1), 0, ["ERROR::FREETYPE: Failed to load font"], false⟩
  else
    match renderLoop shouldClose 0 with
    | some n => ⟨some 0, n, (loadAllGlyphs face gen []).errs, true⟩
    | none => ⟨none, shouldClose.length, (loadAllGlyphs face gen []).errs, false⟩

/-- Some startup step fails. -/
def Startup.fails (s : Startup) : Prop :=
  s.glfwInit = false ∨ s.glfwCreateWindow = false ∨ s.gladLoadGLLoader = false ∨
    s.FT_Init_FreeType = false ∨ s.FT_New_Face = false

/-! ## The render state RenderText touches -/

/-- The part of the GL state that `RenderText` sets: the current program, the
values of the uniforms set so far (by program and name), the active texture
unit, the bound vertex array and the bound texture. -/
structure RenderState where
  program : Nat
  uniforms : List ((Nat × String) × List ℚ)
  activeTexture : Nat
  vertexArray : Nat
  texture : Nat
deriving DecidableEq

/-- Stores the value of a uniform, replacing an earlier value. -/
def setUniform (us : List ((Nat × String) × List ℚ)) (p : Nat) (n : String) (v : List ℚ) :
    List ((Nat × String) × List ℚ) :=
  ((p, n), v) :: us.filter (fun e => !(e.1 == (p, n)))

/-- The value of a uniform, if it has been set. -/
def getUniform (us : List ((Nat × String) × List ℚ)) (p : Nat) (n : String) :
    Option (List ℚ) :=
  (us.find? (fun e => e.1 == (p, n))).map Prod.snd

/-- Effect of one call on the render state. -/
def stateStep (st : RenderState) : GLCmd → RenderState
  | GLCmd.useProgram p => { st with program := p }
  | GLCmd.uniform1f p n a => { st with uniforms := setUniform st.uniforms p n [a] }
  | GLCmd.uniform2f p n a b => { st with uniforms := setUniform st.uniforms p n [a, b] }
  | GLCmd.uniform3f p n a b c => { st with uniforms := setUniform st.uniforms p n [a, b, c] }
  | GLCmd.uniformMatrix4fv p n m => { st with uniforms := setUniform st.uniforms p n m }
  | GLCmd.activeTexture u => { st with activeTexture := u }
  | GLCmd.bindVertexArray v => { st with vertexArray := v }
  | GLCmd.bindTexture t => { st with texture := t }
  | _ => st

/-- The render state after a command list has run. -/
def runState (st : RenderState) (cmds : List GLCmd) : RenderState :=
  cmds.foldl stateStep st

/-! ## Vertices, triangles and commands of a draw -/

/-- The `glUseProgram` calls of a command list, in order. -/
def useProgramCmds : List GLCmd → List GLCmd
  | [] => []
  | GLCmd.useProgram p :: rest => GLCmd.useProgram p :: useProgramCmds rest
  | _ :: rest => useProgramCmds rest

/-- The `glUniform*` calls of a command list, in order. -/
def uniformCmds : List GLCmd → List GLCmd
  | [] => []
  | GLCmd.uniform1f p n a :: rest => GLCmd.uniform1f p n a :: uniformCmds rest
  | GLCmd.uniform2f p n a b :: rest => GLCmd.uniform2f p n a b :: uniformCmds rest
  | GLCmd.uniform3f p n a b c :: rest => GLCmd.uniform3f p n a b c :: uniformCmds rest
  | GLCmd.uniformMatrix4fv p n m :: rest => GLCmd.uniformMatrix4fv p n m :: uniformCmds rest
  | _ :: rest => uniformCmds rest

/-! ## The strings the programs draw -/

/-- The `char`s of a string literal: its bytes, each converted to `char`. -/
def cstr (s : String) : List Int :=
  (s.toList.flatMap String.utf8EncodeChar).map (fun b => toChar b.toNat)

/-- The `name`, `message` and `time` fields of the six `messages.push_back`
calls of `chat.cpp`. -/
def Chat.messages : List (String × String × String) :=
  [ ("Amel", "Bonsoir", "19:03"),
    ("Ahmed", "Comment Vas tu?", "17:53"),
    ("Nour", "Super !", "16:22"),
    ("Mourad", "Exactement ce mood que je ressens...", "13:30"),
    ("Kais", "C\x27est ou ca?", "11:09"),
    ("Lina", "Bonjour", "07:42") ]

/-- The strings `RenderMessageCard` passes to `RenderText`, in call order. -/
def Chat.messageCardTexts (m : String × String × String) : List String :=
  [m.2.2, m.1, m.2.1]

/-- The strings one frame of `chat.cpp` passes to `RenderText`, in call order. -/
def Chat.frameTexts : List String :=
  ["Recherche..."] ++ Chat.messages.flatMap Chat.messageCardTexts ++
    [ "Nour", "Envoyer", "Tapez un message...", "Bonjour", "Bonjour", "Ca va?",
      "Ca va et toi?", "Super !" ]

/-- The `name`, `price` and `seller` fields of the eight `products.push_back`
calls of `store.cpp`. -/
def Store.products : List (String × String × String) :=
  [ ("Wireless Headphones", "129.99 DT", "AudioTech"),
    ("Smart Watch", "199.99 DT", "TechGadgets"),
    ("Bluetooth Speaker", "79.99 DT", "SoundMaster"),
    ("Laptop Backpack", "49.99 DT", "UrbanGear"),
    ("Fitness Tracker", "89.99 DT", "FitLife"),
    ("Coffee Maker", "59.99 DT", "BrewPerfect"),
    ("Desk Lamp", "34.99 DT", "HomeEssentials"),
    ("Wireless Mouse", "29.99 DT", "TechAccessories") ]

/-- The strings `RenderProductCard` passes to `RenderText`, in call order. -/
def Store.productCardTexts (p : String × String × String) : List String :=
  [p.1, p.2.1, "Sold by " ++ p.2.2, "Add to Cart"]

/-- The strings one frame of `store.cpp` passes to `RenderText`, in call
order. -/
def Store.frameTexts : List String :=
  [ "Marketplace", "Search products...", "All", "Electronics", "Home", "Fashion", "Sports",
    "Popular Products" ] ++ Store.products.flatMap Store.productCardTexts ++
    ["Home", "Search", "Cart", "Profile"]

/-- Every code below 128 rasterises. -/
def AllRasterize (face : FT_Face) : Prop := ∀ c : Nat, c < 128 → (face c).isSome

/-! ## Further concrete inputs used in examples -/

/-- A font face in which every code rasterises, to the same glyph. -/
def faceAll : FT_Face := fun _ => some ⟨30, 34, [], 1, 33, 2048⟩

/-- Startup answers in which every step succeeds. -/
def Startup.allOk : Startup := ⟨true, true, true, true, true⟩

/-- A render state left behind by an earlier draw with another program. -/
def RenderState.sample : RenderState :=
  { program := 9, uniforms := [], activeTexture := 0, vertexArray := 4, texture := 5 }

/-- Arguments of a `RenderRoundedRect` call of the chat program. -/
def RectArgs.sample : RectArgs := ⟨10, 698, 460, 50, 15, ⟨7 / 50, 9 / 50, 6 / 25⟩⟩

/-! ## The glyph map after a run of lookups -/

/-- The glyph map after `operator[]` has been applied to every character of
`text`, in order. -/
def lookupAll (m : GlyphMap) (text : List Int) : GlyphMap :=
  text.foldl (fun acc c => (acc.index c).2) m

/-- The distinct characters of `text` that are not keys of `m`. -/
def missingChars (m : GlyphMap) (text : List Int) : Finset Int :=
  text.toFinset.filter (fun c => m.find c = none)

/-! ## LoadTextureCircular (chat program) -/

/-- The function `LoadTextureCircular` of `chat.cpp`. `loaded` is what
`stbi_load(path.c_str(), …)` returns after
`stbi_set_flip_vertically_on_load(true)`; the format is chosen by the same
three-way test as in `LoadTexture`. -/
def Chat.LoadTextureCircular (gen : List Nat → Nat) (textures : List Nat) (path : String)
    (loaded : Option Image) : TextureLoad :=
  let textureID := gen textures
  match loaded with
  | some img =>
    { handle := textureID,
      textures := textures ++ [textureID],
      cmds :=
        [ GLCmd.genTextures textureID,
          GLCmd.bindTexture textureID,
          GLCmd.texImage2DFormat (selectFormat img.nrComponents) img.width img.height img.data,
          GLCmd.generateMipmap,
          GLCmd.texParameteri "GL_TEXTURE_WRAP_S" "GL_CLAMP_TO_EDGE",
          GLCmd.texParameteri "GL_TEXTURE_WRAP_T" "GL_CLAMP_TO_EDGE",
          GLCmd.texParameteri "GL_TEXTURE_MIN_FILTER" "GL_LINEAR_MIPMAP_LINEAR",
          GLCmd.texParameteri "GL_TEXTURE_MAG_FILTER" "GL_LINEAR" ],
      errs := [] }
  | none =>
    { handle := textureID,
      textures := textures ++ [textureID],
      cmds := [GLCmd.genTextures textureID],
      errs := ["Failed to load texture at path: " ++ path] }

/-- The formats carried by the `glTexImage2D` calls of a command list. -/
def uploadFormats : List GLCmd → List (Option String)
  | [] => []
  | GLCmd.texImage2DFormat f _ _ _ :: rest => f :: uploadFormats rest
  | _ :: rest => uploadFormats rest

/-! ## The rounded-rectangle fragment shader (chat program) -/

/-- The GLSL function `roundedBoxSDF(centerPos, size, radius)` of
`roundedRectFragmentShader`, over an ordered field `K` with square root
`sqrt`; `length(v)` is `sqrt (v.x ^ 2 + v.y ^ 2)` and `abs`, `max`, `+`, `-`
act componentwise. -/
def roundedBoxSDF {K : Type} [LinearOrderedField K] (sqrt : K → K)
    (centerPos size : K × K) (radius : K) : K :=
  let q : K × K := (|centerPos.1| - size.1 + radius, |centerPos.2| - size.2 + radius)
  min (max q.1 q.2) 0 + sqrt (max q.1 0 ^ 2 + max q.2 0 ^ 2) - radius

/-- The `main` of `roundedRectFragmentShader` for the pixel `pixelCoord`
(`gl_FragCoord.xy`): `none` when the fragment is discarded, otherwise the
colour written to `FragColor`. -/
def roundedRectFragment {K : Type} [LinearOrderedField K] (sqrt : K → K)
    (uSize uPosition : K × K) (uRadius : K) (uColor : K × K × K) (pixelCoord : K × K) :
    Option (K × K × K × K) :=
  let center : K × K := (uPosition.1 + uSize.1 / 2, uPosition.2 + uSize.2 / 2)
  let halfSize : K × K := (uSize.1 / 2, uSize.2 / 2)
  let distance :=
    roundedBoxSDF sqrt (pixelCoord.1 - center.1, pixelCoord.2 - center.2) halfSize uRadius
  if distance > 0 then none else some (uColor.1, uColor.2.1, uColor.2.2, 1)

/-! ## Binary32 rounding and RenderText with rounded float operations -/

/-- The number of halvings (at most `fuel`) that bring `n` below 2. -/
def log2Fuel : Nat → Nat → Nat
  | 0, _ => 0
  | fuel + 1, n => if n < 2 then 0 else 1 + log2Fuel fuel (n / 2)

/-- The integer part of the binary logarithm of `n` (0 for `n = 0`). -/
def ilog2 (n : Nat) : Nat := log2Fuel n n

/-- The power `2 ^ k` for an integer exponent. -/
def pow2 (k : Int) : ℚ :=
  if 0 ≤ k then ((2 ^ k.toNat : Nat) : ℚ) else 1 / ((2 ^ (-k).toNat : Nat) : ℚ)

/-- The integer part of the binary logarithm of `n / d`, for positive `n`, `d`. -/
def floorLog2 (n d : Nat) : Int :=
  let e0 : Int := (ilog2 n : Int) - (ilog2 d : Int)
  if pow2 e0 * (d : ℚ) ≤ (n : ℚ) then e0 else e0 - 1

/-- The integer nearest to `t`, a tie going to the even neighbour. -/
def roundHalfEven (t : ℚ) : Int :=
  let f := ⌊t⌋
  let r := t - (f : ℚ)
  if r < 1 / 2 then f else if 1 / 2 < r then f + 1 else if f % 2 = 0 then f else f + 1

/-- Rounding to IEEE 754 binary32, the `float` of the programs: the nearest
multiple of `2 ^ (e - 23)`, where `2 ^ e <= |q| < 2 ^ (e + 1)` and `e` is at
least -126 (subnormal range), a tie going to the even multiple. Overflow to
infinity is not modelled. -/
def roundToF32 (q : ℚ) : ℚ :=
  if q = 0 then 0
  else
    let a := |q|
    let e := max (floorLog2 a.num.natAbs a.den) (-126)
    let quantum := pow2 (e - 23)
    (if q < 0 then -1 else 1) * (roundHalfEven (a / quantum) : ℚ) * quantum

/-- The array `vertices[6][4]` with the sums `ypos + h` and `xpos + w` rounded
by `fl`. -/
def quadVerticesF (fl : ℚ → ℚ) (xpos ypos w h : ℚ) : List (List ℚ) :=
  [ [xpos,          fl (ypos + h), 0, 0],
    [xpos,          ypos,          0, 1],
    [fl (xpos + w), ypos,          1, 1],
    [xpos,          fl (ypos + h), 0, 0],
    [fl (xpos + w), ypos,          1, 1],
    [fl (xpos + w), fl (ypos + h), 1, 0] ]

/-- The value of `float xpos = x + ch.Bearing.x * scale`. -/
def xposF (fl : ℚ → ℚ) (ch : Character) (x scale : ℚ) : ℚ :=
  fl (x + fl (fl (ch.Bearing.x : ℚ) * scale))

/-- The value of `float ypos = y - (ch.Size.y - ch.Bearing.y) * scale`. -/
def yposF (fl : ℚ → ℚ) (ch : Character) (y scale : ℚ) : ℚ :=
  fl (y - fl (fl ((ch.Size.y - ch.Bearing.y : Int) : ℚ) * scale))

/-- The value of `float w = ch.Size.x * scale`. -/
def widthF (fl : ℚ → ℚ) (ch : Character) (scale : ℚ) : ℚ :=
  fl (fl (ch.Size.x : ℚ) * scale)

/-- The value of `float h = ch.Size.y * scale`. -/
def heightF (fl : ℚ → ℚ) (ch : Character) (scale : ℚ) : ℚ :=
  fl (fl (ch.Size.y : ℚ) * scale)

/-- The value of `x` after `x += (ch.Advance >> 6) * scale`. -/
def nextCursorF (fl : ℚ → ℚ) (ch : Character) (x scale : ℚ) : ℚ :=
  fl (x + fl (fl ((ch.Advance >>> 6 : Nat) : ℚ) * scale))

/-- The OpenGL calls of one loop iteration of `RenderText`, every float
operation rounded by `fl`. -/
def glyphCmdsF (fl : ℚ → ℚ) (VBO : Nat) (ch : Character) (x y scale : ℚ) : List GLCmd :=
  let xpos := xposF fl ch x scale
  let ypos := yposF fl ch y scale
  let w := widthF fl ch scale
  let h := heightF fl ch scale
  [ GLCmd.bindTexture ch.TextureID,
    GLCmd.bindBuffer BufferTarget.ARRAY_BUFFER VBO,
    GLCmd.bufferSubData BufferTarget.ARRAY_BUFFER 0 (quadVerticesF fl xpos ypos w h),
    GLCmd.bindBuffer BufferTarget.ARRAY_BUFFER 0,
    GLCmd.drawArrays DrawMode.TRIANGLES 0 6 ]

/-- One iteration of the character loop of `RenderText`, every float operation
rounded by `fl`. -/
def renderCharF (fl : ℚ → ℚ) (VBO : Nat) (y scale : ℚ) (st : TextState) (c : Int) :
    TextState :=
  let r := st.Characters.index c
  let ch := r.1
  { Characters := r.2,
    x := nextCursorF fl ch st.x scale,
    cmds := st.cmds ++ glyphCmdsF fl VBO ch st.x y scale }

/-- The function `RenderText` with every float operation rounded by `fl`: the
code's arithmetic for `fl = roundToF32`, exact arithmetic for `fl = id`. -/
def RenderTextF (fl : ℚ → ℚ) (Characters : GlyphMap) (VAO VBO : Nat) (shader : Nat)
    (text : List Int) (x y scale : ℚ) (color : Vec3) : TextState :=
  let st0 : TextState :=
    { Characters := Characters,
      x := x,
      cmds := [ GLCmd.useProgram shader,
                GLCmd.uniform3f shader "textColor" color.x color.y color.z,
                GLCmd.activeTexture 0,
                GLCmd.bindVertexArray VAO ] }
  let st1 := text.foldl (renderCharF fl VBO y scale) st0
  { st1 with cmds := st1.cmds ++ [GLCmd.bindVertexArray 0, GLCmd.bindTexture 0] }

/-- The cursor before the `k`-th character when every float operation is
rounded by `fl`: the start advanced, character by character, over the
characters before `k`. -/
def cursorAtF (fl : ℚ → ℚ) (m : GlyphMap) (text : List Int) (x0 scale : ℚ) (k : Nat) : ℚ :=
  (text.take k).foldl (fun x c => nextCursorF fl (m.glyph c) x scale) x0

/-- The calls of the character loop for `text`, every glyph taken from `m`
and every float operation rounded by `fl`. -/
def textCmdsF (fl : ℚ → ℚ) (VBO : Nat) (m : GlyphMap) (y scale : ℚ) :
    List Int → ℚ → List GLCmd
  | [], _ => []
  | c :: cs, x =>
    glyphCmdsF fl VBO (m.glyph c) x y scale ++
      textCmdsF fl VBO m y scale cs (nextCursorF fl (m.glyph c) x scale)

/-- The draw call for the glyph `ch` with the cursor at `x`, every float
operation rounded by `fl`. -/
def glyphDrawF (fl : ℚ → ℚ) (ch : Character) (x y scale : ℚ) : DrawCall :=
  { texture := ch.TextureID,
    vertices := quadVerticesF fl (xposF fl ch x scale) (yposF fl ch y scale)
      (widthF fl ch scale) (heightF fl ch scale),
    mode := DrawMode.TRIANGLES,
    first := 0,
    count := 6 }

/-- The draw calls of the character loop for `text`, every glyph taken from
`m` and every float operation rounded by `fl`. -/
def textDrawsF (fl : ℚ → ℚ) (m : GlyphMap) (y scale : ℚ) : List Int → ℚ → List DrawCall
  | [], _ => []
  | c :: cs, x =>
    glyphDrawF fl (m.glyph c) x y scale ::
      textDrawsF fl m y scale cs (nextCursorF fl (m.glyph c) x scale)

/-- A cache holding the glyph of `R` (code 82): 25 by 33 pixels, bearing
(3, 33), advance 1843. -/
def cacheR : GlyphMap := [(82, ⟨7, ⟨25, 33⟩, ⟨3, 33⟩, 1843⟩)]

/-- A cache holding a glyph of `A` (code 65) with advance 2048. -/
def cacheA : GlyphMap := [(65, ⟨7, ⟨10, 12⟩, ⟨1, 11⟩, 2048⟩)]

/-- The `float` literal `0.45f`. -/
def f045 : ℚ := 15099494 / 33554432

/-- The `float` literal `0.1f`. -/
def f01 : ℚ := 13421773 / 134217728

/-- The colour `glm::vec3(0.43f, 0.47f, 0.51f)` of the chat program. -/
def greyText : Vec3 := ⟨roundToF32 (43 / 100), roundToF32 (47 / 100), roundToF32 (51 / 100)⟩

/-! ## Theorems -/

/-! ### The glyph map -/

theorem GlyphMap.find_place_ne (m : GlyphMap) (k k' : Int) (v : Character) (h : k' ≠ k) :
    (m.place k v).find k' = m.find k' := by
  induction m with
  | nil => simp [GlyphMap.place, GlyphMap.find, h]
  | cons e rest ih =>
    obtain ⟨k0, v0⟩ := e
    by_cases hlt : k < k0
    · simp [GlyphMap.place, GlyphMap.find, hlt, h]
    · simp [GlyphMap.place, GlyphMap.find, hlt, ih]

theorem GlyphMap.find_place_self (m : GlyphMap) (k : Int) (v : Character)
    (h : m.find k = none) : (m.place k v).find k = some v := by
  induction m with
  | nil => simp [GlyphMap.place, GlyphMap.find]
  | cons e rest ih =>
    obtain ⟨k0, v0⟩ := e
    by_cases hk : k = k0
    · simp [GlyphMap.find, hk] at h
    · simp only [GlyphMap.find, hk, if_false] at h
      by_cases hlt : k < k0
      · simp [GlyphMap.place, GlyphMap.find, hlt]
      · simp [GlyphMap.place, GlyphMap.find, hlt, hk, ih h]

theorem GlyphMap.length_place (m : GlyphMap) (k : Int) (v : Character) :
    (m.place k v).length = m.length + 1 := by
  induction m with
  | nil => simp [GlyphMap.place]
  | cons e rest ih =>
    obtain ⟨k0, v0⟩ := e
    by_cases hlt : k < k0
    · simp [GlyphMap.place, hlt]
    · simp [GlyphMap.place, hlt, ih]

theorem GlyphMap.index_fst (m : GlyphMap) (c : Int) : (m.index c).1 = m.glyph c := by
  unfold GlyphMap.index GlyphMap.glyph
  cases h : m.find c <;> simp

theorem GlyphMap.index_snd_of_find (m : GlyphMap) (c : Int) (v : Character)
    (h : m.find c = some v) : (m.index c).2 = m := by
  unfold GlyphMap.index
  simp [h]

theorem GlyphMap.find_index_of_find (m : GlyphMap) (c k : Int) (v : Character)
    (h : m.find k = some v) : (m.index c).2.find k = some v := by
  unfold GlyphMap.index
  cases hc : m.find c with
  | some w => simpa using h
  | none =>
    have hne : k ≠ c := by
      intro e
      rw [e, hc] at h
      cases h
    simpa [GlyphMap.find_place_ne m c k Character.zero hne] using h

theorem GlyphMap.glyph_index (m : GlyphMap) (c k : Int) :
    (m.index c).2.glyph k = m.glyph k := by
  unfold GlyphMap.index
  cases hc : m.find c with
  | some w => rfl
  | none =>
    by_cases hk : k = c
    · subst hk
      simp [GlyphMap.glyph, GlyphMap.find_place_self m k Character.zero hc, hc]
    · simp [GlyphMap.glyph, GlyphMap.find_place_ne m c k Character.zero hk]

/-! ### The character loop of RenderText -/

theorem foldl_renderChar (VBO : Nat) (y scale : ℚ) (m : GlyphMap) (text : List Int) :
    ∀ st : TextState, (∀ k, st.Characters.glyph k = m.glyph k) →
      (text.foldl (renderChar VBO y scale) st).x = st.x + (text.map (advance m scale)).sum ∧
      (text.foldl (renderChar VBO y scale) st).cmds
        = st.cmds ++ textCmds VBO m y scale text st.x ∧
      ∀ k, (text.foldl (renderChar VBO y scale) st).Characters.glyph k = m.glyph k := by
  induction text with
  | nil => intro st h; simp [textCmds, h]
  | cons c cs ih =>
    intro st h
    have hinv : ∀ k, (renderChar VBO y scale st c).Characters.glyph k = m.glyph k := by
      intro k
      simp only [renderChar]
      rw [GlyphMap.glyph_index, h]
    obtain ⟨hx, hc, hg⟩ := ih (renderChar VBO y scale st c) hinv
    have hch : (st.Characters.index c).1 = m.glyph c := by
      rw [GlyphMap.index_fst, h]
    refine ⟨?_, ?_, ?_⟩
    · simp only [List.foldl_cons, List.map_cons, List.sum_cons]
      rw [hx]
      simp only [renderChar, hch, advance]
      ring
    · simp only [List.foldl_cons]
      rw [hc]
      simp only [renderChar, hch, textCmds, advance, List.append_assoc]
    · simpa using hg

theorem foldl_renderChar_keys (VBO : Nat) (y scale : ℚ) (text : List Int) :
    ∀ st : TextState, (∀ c ∈ text, (st.Characters.find c).isSome) →
      (text.foldl (renderChar VBO y scale) st).Characters = st.Characters := by
  induction text with
  | nil => intro st _; rfl
  | cons c cs ih =>
    intro st h
    obtain ⟨v, hv⟩ := Option.isSome_iff_exists.mp (h c (by simp))
    have hstep : (renderChar VBO y scale st c).Characters = st.Characters := by
      simp only [renderChar]
      exact GlyphMap.index_snd_of_find _ _ v hv
    simp only [List.foldl_cons]
    rw [ih (renderChar VBO y scale st c) (by
      intro d hd
      rw [hstep]
      exact h d (by simp [hd])), hstep]

theorem foldl_renderChar_find (VBO : Nat) (y scale : ℚ) (text : List Int) (k : Int)
    (v : Character) :
    ∀ st : TextState, st.Characters.find k = some v →
      (text.foldl (renderChar VBO y scale) st).Characters.find k = some v := by
  induction text with
  | nil => intro st h; simpa using h
  | cons c cs ih =>
    intro st h
    simp only [List.foldl_cons]
    apply ih
    simp only [renderChar]
    exact GlyphMap.find_index_of_find _ _ _ _ h

theorem RenderText_x (m : GlyphMap) (VAO VBO shader : Nat) (text : List Int)
    (x y scale : ℚ) (color : Vec3) :
    (RenderText m VAO VBO shader text x y scale color).x
      = x + (text.map (advance m scale)).sum := by
  simp only [RenderText]
  exact (foldl_renderChar VBO y scale m text _ (fun _ => rfl)).1

theorem RenderText_cmds (m : GlyphMap) (VAO VBO shader : Nat) (text : List Int)
    (x y scale : ℚ) (color : Vec3) :
    (RenderText m VAO VBO shader text x y scale color).cmds
      = [ GLCmd.useProgram shader,
          GLCmd.uniform3f shader "textColor" color.x color.y color.z,
          GLCmd.activeTexture 0,
          GLCmd.bindVertexArray VAO ]
        ++ textCmds VBO m y scale text x
        ++ [GLCmd.bindVertexArray 0, GLCmd.bindTexture 0] := by
  simp only [RenderText]
  rw [(foldl_renderChar VBO y scale m text _ (fun _ => rfl)).2.1]

/-! ### Draw calls of a command list -/

theorem replay_textCmds (VBO : Nat) (m : GlyphMap) (y scale : ℚ) (text : List Int) :
    ∀ (x : ℚ) (r : Replay),
      ((textCmds VBO m y scale text x).foldl replayStep r).draws
        = r.draws ++ textDraws m y scale text x := by
  induction text with
  | nil => intro x r; simp [textCmds, textDraws]
  | cons c cs ih =>
    intro x r
    simp only [textCmds, textDraws, List.foldl_append]
    rw [ih]
    simp [glyphCmds, replayStep, glyphDraw]

theorem replay_draws_tail (r : Replay) :
    ([GLCmd.bindVertexArray 0, GLCmd.bindTexture 0].foldl replayStep r).draws = r.draws := by
  simp [replayStep]

theorem drawCalls_RenderText (m : GlyphMap) (VAO VBO shader : Nat) (text : List Int)
    (x y scale : ℚ) (color : Vec3) :
    drawCalls (RenderText m VAO VBO shader text x y scale color).cmds
      = textDraws m y scale text x := by
  rw [RenderText_cmds]
  unfold drawCalls
  rw [List.foldl_append, replay_draws_tail, List.foldl_append, replay_textCmds]
  simp [replayStep]

theorem length_textDraws (m : GlyphMap) (y scale : ℚ) (text : List Int) :
    ∀ x : ℚ, (textDraws m y scale text x).length = text.length := by
  induction text with
  | nil => intro x; rfl
  | cons c cs ih => intro x; simp [textDraws, ih]

theorem cursorAt_zero (m : GlyphMap) (text : List Int) (x0 scale : ℚ) :
    cursorAt m text x0 scale 0 = x0 := by
  simp [cursorAt]

theorem cursorAt_cons_succ (m : GlyphMap) (c : Int) (cs : List Int) (x0 scale : ℚ) (k : Nat) :
    cursorAt m (c :: cs) x0 scale (k + 1) = cursorAt m cs (x0 + advance m scale c) scale k := by
  simp [cursorAt, advance, add_assoc]

theorem textDraws_getElem? (m : GlyphMap) (y scale : ℚ) (text : List Int) :
    ∀ (x : ℚ) (k : Nat) (c : Int), text[k]? = some c →
      (textDraws m y scale text x)[k]?
        = some (glyphDraw (m.glyph c) (cursorAt m text x scale k) y scale) := by
  induction text with
  | nil => intro x k c h; simp at h
  | cons d ds ih =>
    intro x k c h
    cases k with
    | zero =>
      simp only [List.getElem?_cons_zero, Option.some.injEq] at h
      subst h
      simp [textDraws, cursorAt_zero]
    | succ j =>
      simp only [List.getElem?_cons_succ] at h
      simp only [textDraws, List.getElem?_cons_succ, cursorAt_cons_succ]
      exact ih _ j c h

theorem cursorAt_length (m : GlyphMap) (text : List Int) (x0 scale : ℚ) :
    cursorAt m text x0 scale text.length = x0 + (text.map (advance m scale)).sum := by
  simp only [cursorAt, List.take_length]
  rfl

theorem advance_eq_match (m : GlyphMap) (s : ℚ) (c : Int) :
    advance m s c
      = match m.find c with
        | some ch => ((ch.Advance >>> 6 : Nat) : ℚ) * s
        | none => 0 := by
  unfold advance GlyphMap.glyph
  cases m.find c <;> simp [Character.zero]

theorem advance_congr (m m2 : GlyphMap) (s : ℚ) (h : sameButSizeBearing m m2) (c : Int) :
    advance m s c = advance m2 s c := by
  have hc := h c
  unfold advance GlyphMap.glyph
  cases h1 : m.find c <;> cases h2 : m2.find c <;> simp [h1, h2] at hc ⊢
  left
  rw [hc.2]

/-! ### Claims about RenderText -/

/-- Claim C1. The cursor at the end of the loop of `RenderText` is the start
`x0` plus the sum, over the characters of the string, of `(Advance >> 6) * s`
for a cached character and `0` for a character absent from the cache; hence
two caches that differ only in the `Size` and `Bearing` of their entries give
the same final cursor. -/
theorem C1_final_cursor (m : GlyphMap) (VAO VBO shader : Nat) (text : List Int)
    (x0 y s : ℚ) (color : Vec3) :
    (RenderText m VAO VBO shader text x0 y s color).x
        = x0 + (text.map (fun c =>
            match m.find c with
            | some ch => ((ch.Advance >>> 6 : Nat) : ℚ) * s
            | none => 0)).sum
      ∧ ∀ m2 : GlyphMap, sameButSizeBearing m m2 →
          (RenderText m2 VAO VBO shader text x0 y s color).x
            = (RenderText m VAO VBO shader text x0 y s color).x := by
  refine ⟨?_, ?_⟩
  · rw [RenderText_x]
    congr 3
    funext c
    exact advance_eq_match m s c
  · intro m2 h
    rw [RenderText_x, RenderText_x]
    congr 3
    funext c
    exact (advance_congr m m2 s h c).symm

/-- Witness for C1: two one-entry caches for the code 65 with different `Size`
and `Bearing` but the same texture and advance. -/
theorem C1_final_cursor_witness :
    sameButSizeBearing [(65, ⟨7, ⟨10, 12⟩, ⟨1, 11⟩, 2048⟩)] [(65, ⟨7, ⟨3, 4⟩, ⟨0, 2⟩, 2048⟩)]
      ∧ (RenderText [(65, ⟨7, ⟨3, 4⟩, ⟨0, 2⟩, 2048⟩)] 1 2 3 [65, 66, 65] 5 100 (1 / 2) ⟨1, 1, 1⟩).x
        = (RenderText [(65, ⟨7, ⟨10, 12⟩, ⟨1, 11⟩, 2048⟩)] 1 2 3 [65, 66, 65] 5 100 (1 / 2)
            ⟨1, 1, 1⟩).x :=
  have h : sameButSizeBearing [(65, ⟨7, ⟨10, 12⟩, ⟨1, 11⟩, 2048⟩)]
      [(65, ⟨7, ⟨3, 4⟩, ⟨0, 2⟩, 2048⟩)] := by
    intro c
    by_cases hc : c = 65 <;> simp [GlyphMap.find, hc]
  ⟨h, (C1_final_cursor [(65, ⟨7, ⟨10, 12⟩, ⟨1, 11⟩, 2048⟩)] 1 2 3 [65, 66, 65] 5 100 (1 / 2)
    ⟨1, 1, 1⟩).2 _ h⟩

/-- Claim C3. For a string of length `N`, `RenderText` issues exactly `N` draw
calls; the `i`-th one is a `glDrawArrays(GL_TRIANGLES, 0, 6)` over the six
vertices of one quad and has the texture looked up for the `i`-th character of
the string bound. -/
theorem C3_one_draw_per_character (m : GlyphMap) (VAO VBO shader : Nat) (text : List Int)
    (x0 y s : ℚ) (color : Vec3) :
    (drawCalls (RenderText m VAO VBO shader text x0 y s color).cmds).length = text.length ∧
    ∀ (i : Nat) (c : Int), text[i]? = some c →
      ∃ d : DrawCall,
        (drawCalls (RenderText m VAO VBO shader text x0 y s color).cmds)[i]? = some d ∧
        d.texture = (m.glyph c).TextureID ∧
        d.mode = DrawMode.TRIANGLES ∧ d.first = 0 ∧ d.count = 6 ∧
        d.vertices.length = 6 := by
  refine ⟨?_, ?_⟩
  · rw [drawCalls_RenderText, length_textDraws]
  · intro i c hi
    refine ⟨glyphDraw (m.glyph c) (cursorAt m text x0 s i) y s, ?_, rfl, rfl, rfl, rfl, rfl⟩
    rw [drawCalls_RenderText]
    exact textDraws_getElem? m y s text x0 i c hi

/-- Witness for C3: the third character of a three-character string. -/
theorem C3_one_draw_per_character_witness :
    ([65, 66, 65] : List Int)[2]? = some 65 ∧
    ∃ d : DrawCall,
      (drawCalls (RenderText [(65, ⟨7, ⟨10, 12⟩, ⟨1, 11⟩, 2048⟩), (66, ⟨8, ⟨9, 13⟩, ⟨2, 10⟩, 1920⟩)]
        1 2 3 [65, 66, 65] 5 100 (1 / 2) ⟨1, 1, 1⟩).cmds)[2]? = some d ∧
      d.texture = 7 ∧ d.count = 6 := by
  refine ⟨rfl, ?_⟩
  obtain ⟨d, h1, h2, -, -, h3, -⟩ := (C3_one_draw_per_character
    [(65, ⟨7, ⟨10, 12⟩, ⟨1, 11⟩, 2048⟩), (66, ⟨8, ⟨9, 13⟩, ⟨2, 10⟩, 1920⟩)]
    1 2 3 [65, 66, 65] 5 100 (1 / 2) ⟨1, 1, 1⟩).2 2 65 rfl
  refine ⟨d, h1, ?_, h3⟩
  rw [h2]
  simp [GlyphMap.glyph, GlyphMap.find]

/-- Claim C4. On the empty string `RenderText` leaves the cursor `x` at its
starting value and issues no draw call. -/
theorem C4_empty_string (m : GlyphMap) (VAO VBO shader : Nat) (x0 y s : ℚ) (color : Vec3) :
    (RenderText m VAO VBO shader [] x0 y s color).x = x0 ∧
    drawCalls (RenderText m VAO VBO shader [] x0 y s color).cmds = [] ∧
    drawCommands (RenderText m VAO VBO shader [] x0 y s color).cmds = [] := by
  refine ⟨rfl, ?_, ?_⟩
  · rw [drawCalls_RenderText]
    rfl
  · simp [RenderText, drawCommands]

/-- Counterexample to C7: rendering the one-character string with code 66
against the empty glyph cache leaves a cache with one entry. -/
theorem C7_cache_mutated :
    (RenderText [] 1 2 3 [66] 5 100 1 ⟨1, 1, 1⟩).Characters = [(66, Character.zero)] ∧
    (RenderText [] 1 2 3 [66] 5 100 1 ⟨1, 1, 1⟩).Characters ≠ [] := by
  refine ⟨rfl, ?_⟩
  simp [RenderText, renderChar, GlyphMap.index, GlyphMap.find, GlyphMap.place]

/-- Claim C7, amended. For every cache state and every string all of whose
characters are keys of the cache, the glyph cache after `RenderText` returns
equals the cache before the call; for any string, every entry stored before
the call is stored unchanged after it. -/
theorem C7_cache_unchanged_on_keys (m : GlyphMap) (VAO VBO shader : Nat) (text : List Int)
    (x0 y s : ℚ) (color : Vec3) :
    ((∀ c ∈ text, (m.find c).isSome) →
      (RenderText m VAO VBO shader text x0 y s color).Characters = m) ∧
    ∀ (k : Int) (v : Character), m.find k = some v →
      (RenderText m VAO VBO shader text x0 y s color).Characters.find k = some v := by
  refine ⟨?_, ?_⟩
  · intro h
    simp only [RenderText]
    exact foldl_renderChar_keys VBO y s text _ h
  · intro k v h
    simp only [RenderText]
    exact foldl_renderChar_find VBO y s text k v _ h

/-- Witness for the amended C7: a string over the single cached code 65. -/
theorem C7_cache_unchanged_on_keys_witness :
    (∀ c ∈ ([65, 65] : List Int), (GlyphMap.find [(65, ⟨7, ⟨10, 12⟩, ⟨1, 11⟩, 2048⟩)] c).isSome) ∧
    (RenderText [(65, ⟨7, ⟨10, 12⟩, ⟨1, 11⟩, 2048⟩)] 1 2 3 [65, 65] 5 100 1 ⟨1, 1, 1⟩).Characters
      = [(65, ⟨7, ⟨10, 12⟩, ⟨1, 11⟩, 2048⟩)] :=
  have h : ∀ c ∈ ([65, 65] : List Int),
      (GlyphMap.find [(65, ⟨7, ⟨10, 12⟩, ⟨1, 11⟩, 2048⟩)] c).isSome := by
    intro c hc
    simp only [List.mem_cons, List.mem_singleton, List.not_mem_nil, or_false, or_self] at hc
    subst hc
    rfl
  ⟨h, (C7_cache_unchanged_on_keys [(65, ⟨7, ⟨10, 12⟩, ⟨1, 11⟩, 2048⟩)] 1 2 3 [65, 65] 5 100 1
    ⟨1, 1, 1⟩).1 h⟩

/-! ### The glyph-loading loop -/

theorem GlyphMap.find_insert_ne (m : GlyphMap) (k k2 : Int) (v : Character) (h : k2 ≠ k) :
    (m.insert k v).find k2 = m.find k2 := by
  unfold GlyphMap.insert
  cases m.find k with
  | some w => rfl
  | none => exact GlyphMap.find_place_ne m k k2 v h

theorem GlyphMap.find_insert_self (m : GlyphMap) (k : Int) (v : Character)
    (h : m.find k = none) : (m.insert k v).find k = some v := by
  unfold GlyphMap.insert
  rw [h]
  exact GlyphMap.find_place_self m k v h

theorem GlyphMap.size_insert (m : GlyphMap) (k : Int) (v : Character)
    (h : m.find k = none) : (m.insert k v).size = m.size + 1 := by
  unfold GlyphMap.insert GlyphMap.size
  rw [h]
  exact GlyphMap.length_place m k v

theorem GlyphMap.find_isSome_iff_mem_keys (m : GlyphMap) (k : Int) :
    (m.find k).isSome ↔ k ∈ m.keys := by
  induction m with
  | nil => simp [GlyphMap.find, GlyphMap.keys]
  | cons e rest ih =>
    obtain ⟨k0, v0⟩ := e
    by_cases hk : k = k0
    · simp [GlyphMap.find, GlyphMap.keys, hk]
    · simp only [GlyphMap.find, hk, if_false, ih]
      simp [GlyphMap.keys, hk]

theorem toChar_of_lt (c : Nat) (h : c < 128) : toChar c = (c : Int) := by
  unfold toChar
  have h1 : c % 256 = c := Nat.mod_eq_of_lt (by omega)
  rw [h1, if_pos h]

theorem loadGlyphs_succ (face : FT_Face) (gen : List Nat → Nat) (st : LoadState) (n : Nat) :
    loadGlyphs face gen st (n + 1) = loadGlyph face gen (loadGlyphs face gen st n) n := by
  simp [loadGlyphs, List.range_succ, List.foldl_append]

theorem rasterized_succ (face : FT_Face) (n : Nat) :
    rasterized face (n + 1)
      = rasterized face n ++ (if (face n).isSome then [n] else []) := by
  simp only [rasterized, List.range_succ, List.filter_append]
  by_cases h : (face n).isSome <;> simp [List.filter, h]

theorem length_rasterized_le (face : FT_Face) (n : Nat) : (rasterized face n).length ≤ n := by
  unfold rasterized
  calc ((List.range n).filter (fun c => (face c).isSome)).length
      ≤ (List.range n).length := List.length_filter_le _ _
    _ = n := List.length_range n

/-- The entry the loading loop stores for the code `k` once the iterations
below `n` have run. -/
theorem find_loadGlyphs (face : FT_Face) (gen : List Nat → Nat) (textures : List Nat) :
    ∀ n : Nat, n ≤ 128 → ∀ k : Int,
      (loadGlyphs face gen (LoadState.start textures) n).Characters.find k
        = if 0 ≤ k ∧ k < n then
            (face k.toNat).map
              (mkCharacter (gen (loadGlyphs face gen (LoadState.start textures) k.toNat).textures))
          else none := by
  intro n
  induction n with
  | zero =>
    intro _ k
    have hno : ¬ (0 ≤ k ∧ k < ((0 : Nat) : Int)) := by omega
    rw [if_neg hno]
    rfl
  | succ n ih =>
    intro hn k
    have ihn := ih (by omega)
    rw [loadGlyphs_succ]
    have hnew : (loadGlyphs face gen (LoadState.start textures) n).Characters.find (n : Int)
        = none := by
      rw [ihn]
      have : ¬ (0 ≤ (n : Int) ∧ (n : Int) < (n : Int)) := by omega
      simp [this]
    by_cases hk : k = (n : Int)
    · subst hk
      have hr : (0 : Int) ≤ (n : Int) ∧ (n : Int) < ((n + 1 : Nat) : Int) := by omega
      rw [if_pos hr, Int.toNat_ofNat]
      unfold loadGlyph
      cases hf : face n with
      | none => simpa using hnew
      | some g =>
        simp only [Option.map_some']
        rw [toChar_of_lt n (by omega)]
        exact GlyphMap.find_insert_self _ _ _ hnew
    · have hiff : (0 ≤ k ∧ k < ((n + 1 : Nat) : Int)) ↔ (0 ≤ k ∧ k < (n : Int)) := by omega
      have hstep : (loadGlyph face gen (loadGlyphs face gen (LoadState.start textures) n)
          n).Characters.find k
          = (loadGlyphs face gen (LoadState.start textures) n).Characters.find k := by
        unfold loadGlyph
        cases hf : face n with
        | none => rfl
        | some g =>
          simp only
          rw [toChar_of_lt n (by omega)]
          exact GlyphMap.find_insert_ne _ _ _ _ hk
      rw [hstep, ihn k]
      simp only [hiff]

theorem size_loadGlyphs (face : FT_Face) (gen : List Nat → Nat) (textures : List Nat) :
    ∀ n : Nat, n ≤ 128 →
      (loadGlyphs face gen (LoadState.start textures) n).Characters.size
          = (rasterized face n).length ∧
      (loadGlyphs face gen (LoadState.start textures) n).errs.length
          + (rasterized face n).length = n := by
  intro n
  induction n with
  | zero => intro _; simp [loadGlyphs, LoadState.start, GlyphMap.size, rasterized]
  | succ n ih =>
    intro hn
    obtain ⟨h1, h2⟩ := ih (by omega)
    have hnew : (loadGlyphs face gen (LoadState.start textures) n).Characters.find (n : Int)
        = none := by
      rw [find_loadGlyphs face gen textures n (by omega)]
      have : ¬ (0 ≤ (n : Int) ∧ (n : Int) < (n : Int)) := by omega
      simp [this]
    rw [loadGlyphs_succ, rasterized_succ]
    unfold loadGlyph
    cases hf : face n with
    | none =>
      simp only [Option.isSome_none, Bool.false_eq_true, if_false, List.append_nil,
        List.length_append, List.length_singleton]
      exact ⟨h1, by omega⟩
    | some g =>
      simp only [Option.isSome_some, if_true, List.length_append, List.length_singleton]
      rw [toChar_of_lt n (by omega), GlyphMap.size_insert _ _ _ hnew]
      exact ⟨by omega, by omega⟩

/-- Claim C8. After the glyph-loading loop has run on an empty cache, a
character code `c` is a key of the cache exactly when `0 <= c < 128` and
rasterising `c` succeeded; the cache size is the number of successfully
rasterised codes below 128 and at most 128, every code outside `[0,128)` is
absent, and every failed code is only logged: the failures and the entries
together account for all 128 iterations. -/
theorem C8_cache_keys (face : FT_Face) (gen : List Nat → Nat) (textures : List Nat) :
    (∀ c : Int, c ∈ (loadAllGlyphs face gen textures).Characters.keys ↔
      (0 ≤ c ∧ c < 128 ∧ (face c.toNat).isSome)) ∧
    (loadAllGlyphs face gen textures).Characters.size = (rasterized face 128).length ∧
    (loadAllGlyphs face gen textures).Characters.size ≤ 128 ∧
    (∀ c : Int, (c < 0 ∨ 128 ≤ c) →
      (loadAllGlyphs face gen textures).Characters.find c = none) ∧
    (loadAllGlyphs face gen textures).errs.length + (rasterized face 128).length = 128 := by
  have hfind := find_loadGlyphs face gen textures 128 (le_refl 128)
  have hsize := size_loadGlyphs face gen textures 128 (le_refl 128)
  refine ⟨?_, hsize.1, ?_, ?_, hsize.2⟩
  · intro c
    rw [← GlyphMap.find_isSome_iff_mem_keys]
    unfold loadAllGlyphs
    rw [hfind c]
    by_cases hr : 0 ≤ c ∧ c < ((128 : Nat) : Int)
    · rw [if_pos hr]
      have h0 : 0 ≤ c := hr.1
      have h1 : c < 128 := by exact_mod_cast hr.2
      simp [h0, h1]
    · rw [if_neg hr]
      have : ¬ (0 ≤ c ∧ c < 128) := by exact_mod_cast hr
      constructor
      · intro h
        simp at h
      · intro h
        exact absurd ⟨h.1, h.2.1⟩ this
  · unfold loadAllGlyphs
    rw [hsize.1]
    exact length_rasterized_le face 128
  · intro c hc
    unfold loadAllGlyphs
    rw [hfind c]
    have : ¬ (0 ≤ c ∧ c < ((128 : Nat) : Int)) := by
      intro h
      have h1 : c < 128 := by exact_mod_cast h.2
      omega
    rw [if_neg this]

/-- Claim C9. For a code `c` below 128 whose rasterisation succeeds with glyph
`g`, the cache entry under `c` after the loop holds the texture name generated
in the iteration for `c` (whose calls create, bind and fill that texture with
the bitmap of `g`), `Size` = (bitmap width, bitmap rows) as `int`s,
`Bearing` = (bitmap_left, bitmap_top) and `Advance` = `advance.x` converted to
an unsigned 32-bit value; the `int` conversion keeps every width and row count
below `2^31`, and the unsigned conversion keeps every advance in `[0, 2^32)`. -/
theorem C9_cache_entry (face : FT_Face) (gen : List Nat → Nat) (textures : List Nat)
    (c : Nat) (g : FT_GlyphSlot) (hc : c < 128) (hg : face c = some g) :
    (loadAllGlyphs face gen textures).Characters.find (c : Int)
      = some
          { TextureID := gen (loadGlyphs face gen (LoadState.start textures) c).textures,
            Size := ⟨toI32 g.bitmap_width, toI32 g.bitmap_rows⟩,
            Bearing := ⟨g.bitmap_left, g.bitmap_top⟩,
            Advance := toU32 g.advance_x } ∧
    (loadGlyphs face gen (LoadState.start textures) (c + 1)).cmds
      = (loadGlyphs face gen (LoadState.start textures) c).cmds ++
        [ GLCmd.genTextures (gen (loadGlyphs face gen (LoadState.start textures) c).textures),
          GLCmd.bindTexture (gen (loadGlyphs face gen (LoadState.start textures) c).textures),
          GLCmd.texImage2D g.bitmap_width g.bitmap_rows g.bitmap_buffer,
          GLCmd.texParameteri "GL_TEXTURE_WRAP_S" "GL_CLAMP_TO_EDGE",
          GLCmd.texParameteri "GL_TEXTURE_WRAP_T" "GL_CLAMP_TO_EDGE",
          GLCmd.texParameteri "GL_TEXTURE_MIN_FILTER" "GL_LINEAR",
          GLCmd.texParameteri "GL_TEXTURE_MAG_FILTER" "GL_LINEAR" ] ∧
    (g.bitmap_width < 2 ^ 31 → toI32 g.bitmap_width = (g.bitmap_width : Int)) ∧
    (g.bitmap_rows < 2 ^ 31 → toI32 g.bitmap_rows = (g.bitmap_rows : Int)) ∧
    ((toU32 g.advance_x : Int) = g.advance_x % 2 ^ 32) ∧
    (0 ≤ g.advance_x → g.advance_x < 2 ^ 32 → (toU32 g.advance_x : Int) = g.advance_x) := by
  have hI : ∀ n : Nat, n < 2 ^ 31 → toI32 n = (n : Int) := by
    intro n hn
    unfold toI32
    have h1 : n % 2 ^ 32 = n := Nat.mod_eq_of_lt (by omega)
    rw [h1, if_pos hn]
  have hU : (toU32 g.advance_x : Int) = g.advance_x % 2 ^ 32 := by
    unfold toU32
    exact Int.toNat_of_nonneg (Int.emod_nonneg _ (by norm_num))
  refine ⟨?_, ?_, hI _, hI _, hU, ?_⟩
  · unfold loadAllGlyphs
    rw [find_loadGlyphs face gen textures 128 (le_refl 128)]
    have hr : (0 : Int) ≤ (c : Int) ∧ (c : Int) < ((128 : Nat) : Int) := by omega
    rw [if_pos hr, Int.toNat_ofNat, hg]
    rfl
  · rw [loadGlyphs_succ]
    unfold loadGlyph
    rw [hg]
    rfl
  · intro h0 h1
    rw [hU]
    exact Int.emod_eq_of_lt h0 h1

/-- Witness for C9: the code 65 in a face where only that code rasterises. -/
theorem C9_cache_entry_witness :
    65 < 128 ∧ faceOnlyA 65 = some ⟨30, 34, [], 1, 33, 2048⟩ ∧
    (loadAllGlyphs faceOnlyA seqGen []).Characters.find 65
      = some ⟨1, ⟨30, 34⟩, ⟨1, 33⟩, 2048⟩ := by
  refine ⟨by decide, rfl, ?_⟩
  have h := (C9_cache_entry faceOnlyA seqGen [] 65 ⟨30, 34, [], 1, 33, 2048⟩ (by decide) rfl).1
  have ht : (loadGlyphs faceOnlyA seqGen (LoadState.start []) 65).textures = [] := by
    simp [loadGlyphs, loadGlyph, faceOnlyA, LoadState.start, List.range, List.range.loop]
  rw [ht] at h
  simpa [seqGen, toI32, toU32] using h

/-! ### The rounded rectangle -/

theorem Chat.CreateShaderProgram_cmds (vsrc fsrc : String) (b : Chat.ShaderBuild) :
    (Chat.CreateShaderProgram vsrc fsrc b).cmds = Chat.buildCmds vsrc fsrc b := by
  unfold Chat.CreateShaderProgram
  cases b.vertexOk <;> cases b.fragmentOk <;> cases b.linkOk <;> rfl

theorem Chat.uniformValues_RenderRoundedRect (gen : List Nat → Nat) (b : Chat.ShaderBuild)
    (r : Chat.Renderer) (objs : GLObjects) (x y width height radius : ℚ) (color : Vec3) :
    uniformValues (Chat.RenderRoundedRect gen b r objs x y width height radius color).cmds
      = [ ("projection", ortho 0 (SCR_WIDTH : ℚ) 0 (SCR_HEIGHT : ℚ)),
          ("uPosition", [x, y]),
          ("uSize", [width, height]),
          ("uRadius", [radius]),
          ("uColor", [color.x, color.y, color.z]),
          ("uScreenSize", [(SCR_WIDTH : ℚ), (SCR_HEIGHT : ℚ)]) ] := by
  unfold Chat.RenderRoundedRect
  by_cases h : r.roundedRectShader = 0
  · simp only [h, if_true, Chat.InitializeRoundedRectRenderer, Chat.CreateShaderProgram_cmds,
      Chat.buildCmds, Chat.roundedRectCmds, List.cons_append, List.nil_append, uniformValues]
  · simp only [h, if_false, Chat.roundedRectCmds, List.nil_append, uniformValues]

theorem Chat.drawCommands_RenderRoundedRect (gen : List Nat → Nat) (b : Chat.ShaderBuild)
    (r : Chat.Renderer) (objs : GLObjects) (x y width height radius : ℚ) (color : Vec3) :
    drawCommands (Chat.RenderRoundedRect gen b r objs x y width height radius color).cmds
      = [GLCmd.drawArrays DrawMode.TRIANGLE_STRIP 0 4] := by
  unfold Chat.RenderRoundedRect
  by_cases h : r.roundedRectShader = 0
  · simp only [h, if_true, Chat.InitializeRoundedRectRenderer, Chat.CreateShaderProgram_cmds,
      Chat.buildCmds, Chat.roundedRectCmds, List.cons_append, List.nil_append, drawCommands]
  · simp only [h, if_false, Chat.roundedRectCmds, List.nil_append, drawCommands]

theorem Chat.RenderRoundedRect_of_ne_zero (gen : List Nat → Nat) (b : Chat.ShaderBuild)
    (r : Chat.Renderer) (objs : GLObjects) (x y width height radius : ℚ) (color : Vec3)
    (h : r.roundedRectShader ≠ 0) :
    Chat.RenderRoundedRect gen b r objs x y width height radius color
      = ⟨r, objs, Chat.roundedRectCmds r x y width height radius color, [], 0⟩ := by
  unfold Chat.RenderRoundedRect
  simp [h]

/-- Counterexample to C10: when the vertex shader does not compile, the first
call of `RenderRoundedRect` runs the shader/buffer creation and leaves the
globals `(0, 1, 1)`; the next call with the same arguments runs it again and
leaves `(0, 2, 2)`. -/
theorem C10_state_changes_after_failed_build :
    (Chat.RenderRoundedRect seqGen Chat.failedBuild Chat.Renderer.initial ⟨[], []⟩
        10 20 100 50 15 ⟨1, 1, 1⟩).inits = 1 ∧
    (Chat.RenderRoundedRect seqGen Chat.failedBuild Chat.Renderer.initial ⟨[], []⟩
        10 20 100 50 15 ⟨1, 1, 1⟩).renderer = ⟨0, 1, 1⟩ ∧
    (Chat.RenderRoundedRect seqGen Chat.failedBuildAgain
        (Chat.RenderRoundedRect seqGen Chat.failedBuild Chat.Renderer.initial ⟨[], []⟩
          10 20 100 50 15 ⟨1, 1, 1⟩).renderer
        (Chat.RenderRoundedRect seqGen Chat.failedBuild Chat.Renderer.initial ⟨[], []⟩
          10 20 100 50 15 ⟨1, 1, 1⟩).objects
        10 20 100 50 15 ⟨1, 1, 1⟩).renderer = ⟨0, 2, 2⟩ ∧
    (Chat.RenderRoundedRect seqGen Chat.failedBuildAgain
        (Chat.RenderRoundedRect seqGen Chat.failedBuild Chat.Renderer.initial ⟨[], []⟩
          10 20 100 50 15 ⟨1, 1, 1⟩).renderer
        (Chat.RenderRoundedRect seqGen Chat.failedBuild Chat.Renderer.initial ⟨[], []⟩
          10 20 100 50 15 ⟨1, 1, 1⟩).objects
        10 20 100 50 15 ⟨1, 1, 1⟩).renderer
      ≠ (Chat.RenderRoundedRect seqGen Chat.failedBuild Chat.Renderer.initial ⟨[], []⟩
          10 20 100 50 15 ⟨1, 1, 1⟩).renderer := by
  refine ⟨rfl, rfl, rfl, ?_⟩
  simp [Chat.RenderRoundedRect, Chat.InitializeRoundedRectRenderer, Chat.CreateShaderProgram,
    Chat.failedBuild, Chat.failedBuildAgain, Chat.Renderer.initial, seqGen]

/-- Claim C10, amended. For every `(x, y, width, height, radius, color)`, two
consecutive calls of `RenderRoundedRect` emit the same uniform values and the
same draw command, in the chat program and in the product-grid program; in the
chat program, when the first call leaves a non-zero `roundedRectShader` (the
shader program was created successfully), a further call performs no
initialisation and leaves `roundedRectShader`, `roundedRectVAO`,
`roundedRectVBO` and the GL names in use unchanged. -/
theorem C10_rounded_rect_idempotent (gen : List Nat → Nat) (b1 b2 : Chat.ShaderBuild)
    (r : Chat.Renderer) (objs : GLObjects) (rectShaderProgram : Nat) (sobjs : GLObjects)
    (x y width height radius : ℚ) (color : Vec3) :
    uniformValues (Chat.RenderRoundedRect gen b2
        (Chat.RenderRoundedRect gen b1 r objs x y width height radius color).renderer
        (Chat.RenderRoundedRect gen b1 r objs x y width height radius color).objects
        x y width height radius color).cmds
      = uniformValues (Chat.RenderRoundedRect gen b1 r objs x y width height radius color).cmds ∧
    drawCommands (Chat.RenderRoundedRect gen b2
        (Chat.RenderRoundedRect gen b1 r objs x y width height radius color).renderer
        (Chat.RenderRoundedRect gen b1 r objs x y width height radius color).objects
        x y width height radius color).cmds
      = drawCommands (Chat.RenderRoundedRect gen b1 r objs x y width height radius color).cmds ∧
    ((Chat.RenderRoundedRect gen b1 r objs x y width height radius color).renderer.roundedRectShader
        ≠ 0 →
      (Chat.RenderRoundedRect gen b2
        (Chat.RenderRoundedRect gen b1 r objs x y width height radius color).renderer
        (Chat.RenderRoundedRect gen b1 r objs x y width height radius color).objects
        x y width height radius color).renderer
          = (Chat.RenderRoundedRect gen b1 r objs x y width height radius color).renderer ∧
      (Chat.RenderRoundedRect gen b2
        (Chat.RenderRoundedRect gen b1 r objs x y width height radius color).renderer
        (Chat.RenderRoundedRect gen b1 r objs x y width height radius color).objects
        x y width height radius color).objects
          = (Chat.RenderRoundedRect gen b1 r objs x y width height radius color).objects ∧
      (Chat.RenderRoundedRect gen b2
        (Chat.RenderRoundedRect gen b1 r objs x y width height radius color).renderer
        (Chat.RenderRoundedRect gen b1 r objs x y width height radius color).objects
        x y width height radius color).inits = 0) ∧
    uniformValues (Store.RenderRoundedRect gen rectShaderProgram
        (Store.RenderRoundedRect gen rectShaderProgram sobjs x y width height radius color).objects
        x y width height radius color).cmds
      = uniformValues
          (Store.RenderRoundedRect gen rectShaderProgram sobjs x y width height radius color).cmds ∧
    drawCommands (Store.RenderRoundedRect gen rectShaderProgram
        (Store.RenderRoundedRect gen rectShaderProgram sobjs x y width height radius color).objects
        x y width height radius color).cmds
      = drawCommands
          (Store.RenderRoundedRect gen rectShaderProgram sobjs x y width height radius color).cmds := by
  refine ⟨?_, ?_, ?_, ?_, ?_⟩
  · rw [Chat.uniformValues_RenderRoundedRect, Chat.uniformValues_RenderRoundedRect]
  · rw [Chat.drawCommands_RenderRoundedRect, Chat.drawCommands_RenderRoundedRect]
  · intro h
    rw [Chat.RenderRoundedRect_of_ne_zero gen b2 _ _ x y width height radius color h]
    exact ⟨rfl, rfl, rfl⟩
  · simp only [Store.RenderRoundedRect, Store.RenderRect, uniformValues]
  · simp only [Store.RenderRoundedRect, Store.RenderRect, drawCommands]

/-- Witness for the amended C10: the first call builds the shader program 3
successfully; the second call leaves the globals `(3, 1, 1)` as they are. -/
theorem C10_rounded_rect_idempotent_witness :
    (Chat.RenderRoundedRect seqGen Chat.goodBuild Chat.Renderer.initial ⟨[], []⟩
        10 20 100 50 15 ⟨1, 1, 1⟩).renderer.roundedRectShader ≠ 0 ∧
    (Chat.RenderRoundedRect seqGen Chat.goodBuild
        (Chat.RenderRoundedRect seqGen Chat.goodBuild Chat.Renderer.initial ⟨[], []⟩
          10 20 100 50 15 ⟨1, 1, 1⟩).renderer
        (Chat.RenderRoundedRect seqGen Chat.goodBuild Chat.Renderer.initial ⟨[], []⟩
          10 20 100 50 15 ⟨1, 1, 1⟩).objects
        10 20 100 50 15 ⟨1, 1, 1⟩).renderer
      = (Chat.RenderRoundedRect seqGen Chat.goodBuild Chat.Renderer.initial ⟨[], []⟩
          10 20 100 50 15 ⟨1, 1, 1⟩).renderer :=
  have h : (Chat.RenderRoundedRect seqGen Chat.goodBuild Chat.Renderer.initial ⟨[], []⟩
      10 20 100 50 15 ⟨1, 1, 1⟩).renderer.roundedRectShader ≠ 0 := by
    simp [Chat.RenderRoundedRect, Chat.InitializeRoundedRectRenderer, Chat.CreateShaderProgram,
      Chat.goodBuild, Chat.Renderer.initial]
  ⟨h, ((C10_rounded_rect_idempotent seqGen Chat.goodBuild Chat.goodBuild Chat.Renderer.initial
    ⟨[], []⟩ 0 ⟨[], []⟩ 10 20 100 50 15 ⟨1, 1, 1⟩).2.2.1 h).1⟩

/-! ### Repeated calls of RenderRoundedRect -/

theorem Chat.initsOfCalls_of_ne_zero (gen : List Nat → Nat)
    (calls : List (Chat.ShaderBuild × RectArgs)) :
    ∀ (r : Chat.Renderer) (objs : GLObjects), r.roundedRectShader ≠ 0 →
      Chat.initsOfCalls gen calls r objs = List.replicate calls.length 0 := by
  induction calls with
  | nil => intro r objs _; rfl
  | cons c rest ih =>
    intro r objs h
    obtain ⟨b, a⟩ := c
    simp only [Chat.initsOfCalls, List.length_cons, List.replicate_succ]
    rw [Chat.RenderRoundedRect_of_ne_zero gen b r objs a.x a.y a.width a.height a.radius a.color h]
    rw [ih r objs h]

theorem Chat.RenderRoundedRect_initial (gen : List Nat → Nat) (b : Chat.ShaderBuild)
    (r : Chat.Renderer) (objs : GLObjects) (x y width height radius : ℚ) (color : Vec3)
    (h : r.roundedRectShader = 0) :
    (Chat.RenderRoundedRect gen b r objs x y width height radius color).inits = 1 ∧
    (Chat.RenderRoundedRect gen b r objs x y width height radius color).renderer.roundedRectShader
      = (Chat.CreateShaderProgram "roundedRectVertexShader" "roundedRectFragmentShader"
          b).handle := by
  simp [Chat.RenderRoundedRect, h, Chat.InitializeRoundedRectRenderer]

/-- Counterexample to C11: when the vertex shader does not compile,
`CreateShaderProgram` returns 0 and `InitializeRoundedRectRenderer` runs in
the first call and again in the second. -/
theorem C11_initialized_again_after_failed_build :
    Chat.initsOfCalls seqGen
      [(Chat.failedBuild, RectArgs.sample), (Chat.failedBuildAgain, RectArgs.sample)]
      Chat.Renderer.initial ⟨[], []⟩ = [1, 1] := by
  simp [Chat.initsOfCalls, Chat.RenderRoundedRect, Chat.InitializeRoundedRectRenderer,
    Chat.CreateShaderProgram, Chat.failedBuild, Chat.failedBuildAgain, Chat.Renderer.initial]

/-- Claim C11, amended. Over every sequence of `n >= 1` calls of
`RenderRoundedRect` starting from the initial state (`roundedRectShader = 0`),
`InitializeRoundedRectRenderer` runs during the first call; it runs during no
later call provided `CreateShaderProgram` returned a non-zero handle in the
first call, and it runs again during the second call when that handle was 0. -/
theorem C11_initialized_once (gen : List Nat → Nat) (b : Chat.ShaderBuild) (a : RectArgs)
    (rest : List (Chat.ShaderBuild × RectArgs)) (objs : GLObjects) :
    (Chat.initsOfCalls gen ((b, a) :: rest) Chat.Renderer.initial objs).head? = some 1 ∧
    ((Chat.CreateShaderProgram "roundedRectVertexShader" "roundedRectFragmentShader" b).handle
        ≠ 0 →
      Chat.initsOfCalls gen ((b, a) :: rest) Chat.Renderer.initial objs
        = 1 :: List.replicate rest.length 0) ∧
    ((Chat.CreateShaderProgram "roundedRectVertexShader" "roundedRectFragmentShader" b).handle
        = 0 →
      ∀ (b2 : Chat.ShaderBuild) (a2 : RectArgs) (rest2 : List (Chat.ShaderBuild × RectArgs)),
        rest = (b2, a2) :: rest2 →
        (Chat.initsOfCalls gen ((b, a) :: rest) Chat.Renderer.initial objs).take 2 = [1, 1]) := by
  have h0 := Chat.RenderRoundedRect_initial gen b Chat.Renderer.initial objs
    a.x a.y a.width a.height a.radius a.color rfl
  refine ⟨?_, ?_, ?_⟩
  · simp only [Chat.initsOfCalls, List.head?_cons, h0.1]
  · intro h
    simp only [Chat.initsOfCalls, h0.1]
    rw [Chat.initsOfCalls_of_ne_zero gen rest _ _ (by rw [h0.2]; exact h)]
  · intro h b2 a2 rest2 hr
    subst hr
    have h1 := Chat.RenderRoundedRect_initial gen b2
      (Chat.RenderRoundedRect gen b Chat.Renderer.initial objs
        a.x a.y a.width a.height a.radius a.color).renderer
      (Chat.RenderRoundedRect gen b Chat.Renderer.initial objs
        a.x a.y a.width a.height a.radius a.color).objects
      a2.x a2.y a2.width a2.height a2.radius a2.color (by rw [h0.2]; exact h)
    simp only [Chat.initsOfCalls, h0.1, h1.1, List.take_succ_cons, List.take_zero]

/-- Witness for the amended C11: three calls after a successful build. -/
theorem C11_initialized_once_witness :
    (Chat.CreateShaderProgram "roundedRectVertexShader" "roundedRectFragmentShader"
        Chat.goodBuild).handle ≠ 0 ∧
    Chat.initsOfCalls seqGen
      [(Chat.goodBuild, RectArgs.sample), (Chat.goodBuild, RectArgs.sample),
        (Chat.goodBuild, RectArgs.sample)]
      Chat.Renderer.initial ⟨[], []⟩ = [1, 0, 0] :=
  have h : (Chat.CreateShaderProgram "roundedRectVertexShader" "roundedRectFragmentShader"
      Chat.goodBuild).handle ≠ 0 := by
    simp [Chat.CreateShaderProgram, Chat.goodBuild]
  ⟨h, (C11_initialized_once seqGen Chat.goodBuild RectArgs.sample
    [(Chat.goodBuild, RectArgs.sample), (Chat.goodBuild, RectArgs.sample)] ⟨[], []⟩).2.1 h⟩

/-! ### CreateShaderProgram -/

/-- Counterexample to C12: with a vertex shader that does not compile the
program object created has the handle 3, and `CreateShaderProgram` returns 0
after logging. -/
theorem C12_failed_build_returns_zero :
    Chat.failedBuild.shaderProgram = 3 ∧
    (Chat.CreateShaderProgram "roundedRectVertexShader" "roundedRectFragmentShader"
        Chat.failedBuild).handle = 0 ∧
    (Chat.CreateShaderProgram "roundedRectVertexShader" "roundedRectFragmentShader"
        Chat.failedBuild).handle ≠ Chat.failedBuild.shaderProgram ∧
    (Chat.CreateShaderProgram "roundedRectVertexShader" "roundedRectFragmentShader"
        Chat.failedBuild).errs
      = ["Vertex shader compilation failed:", "VERTEX SHADER COMPILATION FAILED:"] := by
  simp [Chat.CreateShaderProgram, Chat.failedBuild]

/-- Claim C12, amended. When a shader fails to compile or the program fails to
link, `CreateShaderProgram` logs the diagnostic and returns 0, not the handle
of the program object it created; its return value equals the handle obtained
from program creation only in the success case, in which nothing is logged. -/
theorem C12_failure_logged_and_zero (vsrc fsrc : String) (b : Chat.ShaderBuild) :
    ((b.vertexOk = false ∨ b.fragmentOk = false ∨ b.linkOk = false) →
      (Chat.CreateShaderProgram vsrc fsrc b).handle = 0 ∧
      (Chat.CreateShaderProgram vsrc fsrc b).errs ≠ []) ∧
    ((b.vertexOk = true ∧ b.fragmentOk = true ∧ b.linkOk = true) →
      (Chat.CreateShaderProgram vsrc fsrc b).handle = b.shaderProgram ∧
      (Chat.CreateShaderProgram vsrc fsrc b).errs = []) := by
  obtain ⟨vs, fs, pr, vo, fo, lo⟩ := b
  cases vo <;> cases fo <;> cases lo <;> simp [Chat.CreateShaderProgram]

/-- Witness for the amended C12: a failing and a successful build. -/
theorem C12_failure_logged_and_zero_witness :
    (Chat.failedBuild.vertexOk = false ∨ Chat.failedBuild.fragmentOk = false ∨
      Chat.failedBuild.linkOk = false) ∧
    (Chat.CreateShaderProgram "roundedRectVertexShader" "roundedRectFragmentShader"
      Chat.failedBuild).handle = 0 ∧
    (Chat.goodBuild.vertexOk = true ∧ Chat.goodBuild.fragmentOk = true ∧
      Chat.goodBuild.linkOk = true) ∧
    (Chat.CreateShaderProgram "roundedRectVertexShader" "roundedRectFragmentShader"
      Chat.goodBuild).handle = Chat.goodBuild.shaderProgram :=
  ⟨Or.inl rfl,
    ((C12_failure_logged_and_zero "roundedRectVertexShader" "roundedRectFragmentShader"
      Chat.failedBuild).1 (Or.inl rfl)).1,
    ⟨rfl, rfl, rfl⟩,
    ((C12_failure_logged_and_zero "roundedRectVertexShader" "roundedRectFragmentShader"
      Chat.goodBuild).2 ⟨rfl, rfl, rfl⟩).1⟩

/-! ### LoadTexture -/

theorem le_foldl_max (l : List Nat) : ∀ (a x : Nat), x = a ∨ x ∈ l → x ≤ l.foldl max a := by
  induction l with
  | nil =>
    intro a x h
    rcases h with h | h
    · simp [h]
    · simp at h
  | cons y ys ih =>
    intro a x h
    simp only [List.foldl_cons]
    rcases h with h | h
    · have := ih (max a y) (max a y) (Or.inl rfl)
      subst h
      exact le_trans (le_max_left x y) this
    · rcases List.mem_cons.mp h with h | h
      · have := ih (max a y) (max a y) (Or.inl rfl)
        subst h
        exact le_trans (le_max_right a x) this
      · exact ih (max a y) x (Or.inr h)

theorem seqGen_fresh : FreshGen seqGen := by
  intro used h
  have := le_foldl_max used 0 (seqGen used) (Or.inr h)
  unfold seqGen at this
  omega

theorem seqGen_ne_zero (used : List Nat) : seqGen used ≠ 0 := by
  unfold seqGen
  omega

/-- Counterexample to C13: with the texture names 1, 2, 3 in use, a
`LoadTexture` whose image file cannot be loaded returns the newly generated
name 4, not 0. -/
theorem C13_failed_load_returns_generated_name :
    (LoadTexture seqGen [1, 2, 3] "C:/opengl/images/face1.png" none).handle = 4 ∧
    (LoadTexture seqGen [1, 2, 3] "C:/opengl/images/face1.png" none).handle ≠ 0 := by
  simp [LoadTexture, seqGen]

/-- Claim C13, amended. When the image file cannot be loaded, `LoadTexture`
writes one line to standard error, does not abort, and returns the texture
name that `glGenTextures` generated at the start of the call, for which no
image is uploaded; it is the name a successful load would return, and it is
not zero when the generated name is not zero. -/
theorem C13_failed_load (gen : List Nat → Nat) (textures : List Nat) (path : String) :
    (LoadTexture gen textures path none).handle = gen textures ∧
    (LoadTexture gen textures path none).errs = ["Texture failed to load at path: " ++ path] ∧
    (LoadTexture gen textures path none).cmds = [GLCmd.genTextures (gen textures)] ∧
    (∀ img : Image, (LoadTexture gen textures path (some img)).handle
      = (LoadTexture gen textures path none).handle) ∧
    (gen textures ≠ 0 → (LoadTexture gen textures path none).handle ≠ 0) := by
  refine ⟨rfl, rfl, rfl, fun _ => rfl, fun h => h⟩

/-- Witness for the amended C13: the sequential name generator. -/
theorem C13_failed_load_witness :
    seqGen [1, 2, 3] ≠ 0 ∧
    (LoadTexture seqGen [1, 2, 3] "C:/opengl/images/face1.png" none).handle ≠ 0 :=
  ⟨seqGen_ne_zero [1, 2, 3],
    (C13_failed_load seqGen [1, 2, 3] "C:/opengl/images/face1.png").2.2.2.2
      (seqGen_ne_zero [1, 2, 3])⟩

/-! ### The function main -/

theorem renderLoop_of_mem (answers : List Bool) :
    ∀ n : Nat, true ∈ answers →
      renderLoop answers n = some (n + (answers.takeWhile (fun a => !a)).length) := by
  induction answers with
  | nil => intro n h; simp at h
  | cons a rest ih =>
    intro n h
    cases a with
    | true => simp [renderLoop]
    | false =>
      have hr : true ∈ rest := by simpa using h
      simp only [renderLoop, ih (n + 1) hr, List.takeWhile_cons, Bool.not_false, if_true,
        List.length_cons]
      congr 1
      omega

theorem Chat.chat_main_of_fails (face : FT_Face) (gen : List Nat → Nat) (s : Startup)
    (shouldClose : List Bool) (h : s.fails) :
    (Chat.main face gen s shouldClose).exit = some (-1) ∧ (Chat.main face gen s shouldClose).frames = 0 := by
  obtain ⟨a, b, c, d, e⟩ := s
  cases a <;> cases b <;> cases c <;> cases d <;> cases e <;>
    simp [Chat.main, Startup.fails] at h ⊢

theorem Store.store_main_of_fails (face : FT_Face) (gen : List Nat → Nat) (s : Startup)
    (shouldClose : List Bool) (h : s.fails) :
    (Store.main face gen s shouldClose).exit = some (-1) ∧ (Store.main face gen s shouldClose).frames = 0 := by
  obtain ⟨a, b, c, d, e⟩ := s
  cases a <;> cases b <;> cases c <;> cases d <;> cases e <;>
    simp [Store.main, Startup.fails] at h ⊢

theorem Chat.chat_main_of_ok (face : FT_Face) (gen : List Nat → Nat) (s : Startup)
    (shouldClose : List Bool) (h : ¬ s.fails) :
    Chat.main face gen s shouldClose
      = match renderLoop shouldClose 0 with
        | some n => ⟨some 0, n, (loadAllGlyphs face gen []).errs, true⟩
        | none => ⟨none, shouldClose.length, (loadAllGlyphs face gen []).errs, false⟩ := by
  obtain ⟨a, b, c, d, e⟩ := s
  cases a <;> cases b <;> cases c <;> cases d <;> cases e <;>
    simp [Chat.main, Startup.fails] at h ⊢

theorem Store.store_main_of_ok (face : FT_Face) (gen : List Nat → Nat) (s : Startup)
    (shouldClose : List Bool) (h : ¬ s.fails) :
    Store.main face gen s shouldClose
      = match renderLoop shouldClose 0 with
        | some n => ⟨some 0, n, (loadAllGlyphs face gen []).errs, true⟩
        | none => ⟨none, shouldClose.length, (loadAllGlyphs face gen []).errs, false⟩ := by
  obtain ⟨a, b, c, d, e⟩ := s
  cases a <;> cases b <;> cases c <;> cases d <;> cases e <;>
    simp [Store.main, Startup.fails] at h ⊢

/-- Claim C14. In both programs `main` returns -1 when any startup step fails
(`glfwInit`, window creation, GL loader, FreeType init, font face load) and
then renders no frame; when every startup step succeeds and
`glfwWindowShouldClose` eventually answers true, it returns 0 after the frames
rendered before that answer. It returns -1 if and only if some startup step
failed. -/
theorem C14_main_exit_code (face : FT_Face) (gen : List Nat → Nat) (s : Startup)
    (shouldClose : List Bool) :
    (s.fails →
      (Chat.main face gen s shouldClose).exit = some (-1) ∧ (Chat.main face gen s shouldClose).frames = 0 ∧
      (Store.main face gen s shouldClose).exit = some (-1) ∧ (Store.main face gen s shouldClose).frames = 0) ∧
    (¬ s.fails → true ∈ shouldClose →
      (Chat.main face gen s shouldClose).exit = some 0 ∧
      (Chat.main face gen s shouldClose).frames = (shouldClose.takeWhile (fun a => !a)).length ∧
      (Store.main face gen s shouldClose).exit = some 0 ∧
      (Store.main face gen s shouldClose).frames = (shouldClose.takeWhile (fun a => !a)).length) ∧
    ((Chat.main face gen s shouldClose).exit = some (-1) ↔ s.fails) ∧
    ((Store.main face gen s shouldClose).exit = some (-1) ↔ s.fails) := by
  refine ⟨?_, ?_, ?_, ?_⟩
  · intro h
    exact ⟨(Chat.chat_main_of_fails face gen s shouldClose h).1, (Chat.chat_main_of_fails face gen s shouldClose h).2,
      (Store.store_main_of_fails face gen s shouldClose h).1, (Store.store_main_of_fails face gen s shouldClose h).2⟩
  · intro h hc
    rw [Chat.chat_main_of_ok face gen s shouldClose h, Store.store_main_of_ok face gen s shouldClose h,
      renderLoop_of_mem shouldClose 0 hc]
    simp
  · constructor
    · intro he
      by_contra hn
      rw [Chat.chat_main_of_ok face gen s shouldClose hn] at he
      cases hl : renderLoop shouldClose 0 <;> simp [hl] at he
    · intro h
      exact (Chat.chat_main_of_fails face gen s shouldClose h).1
  · constructor
    · intro he
      by_contra hn
      rw [Store.store_main_of_ok face gen s shouldClose hn] at he
      cases hl : renderLoop shouldClose 0 <;> simp [hl] at he
    · intro h
      exact (Store.store_main_of_fails face gen s shouldClose h).1

/-- Witness for C14: a failed font load, and a successful startup whose window
is closed after two frames. -/
theorem C14_main_exit_code_witness :
    Startup.fails ⟨true, true, true, true, false⟩ ∧
    (Chat.main faceAll seqGen ⟨true, true, true, true, false⟩ [false, false, true]).exit = some (-1) ∧
    ¬ Startup.fails Startup.allOk ∧ true ∈ [false, false, true] ∧
    (Chat.main faceAll seqGen Startup.allOk [false, false, true]).exit = some 0 ∧
    (Chat.main faceAll seqGen Startup.allOk [false, false, true]).frames = 2 := by
  have hf : Startup.fails ⟨true, true, true, true, false⟩ := by simp [Startup.fails]
  have hok : ¬ Startup.fails Startup.allOk := by simp [Startup.fails, Startup.allOk]
  have hm : true ∈ [false, false, true] := by simp
  have h2 := (C14_main_exit_code faceAll seqGen Startup.allOk [false, false, true]).2.1 hok hm
  exact ⟨hf, ((C14_main_exit_code faceAll seqGen ⟨true, true, true, true, false⟩ [false, false, true]).1 hf).1,
    hok, hm, h2.1, by simpa using h2.2.1⟩

/-! ### RenderText on the empty string, and the shape of a glyph quad -/

/-- Counterexample to C15: on the empty string `RenderText` still issues six
calls, and a render state with program 9, vertex array 4 and texture 5 bound
is left with program 3 and vertex array 0 and texture 0 bound. -/
theorem C15_empty_string_changes_state :
    (RenderText [] 1 2 3 [] 5 100 1 ⟨1, 1, 1⟩).cmds.length = 6 ∧
    (runState RenderState.sample (RenderText [] 1 2 3 [] 5 100 1 ⟨1, 1, 1⟩).cmds).program = 3 ∧
    (runState RenderState.sample (RenderText [] 1 2 3 [] 5 100 1 ⟨1, 1, 1⟩).cmds).texture = 0 ∧
    runState RenderState.sample (RenderText [] 1 2 3 [] 5 100 1 ⟨1, 1, 1⟩).cmds
      ≠ RenderState.sample := by
  refine ⟨rfl, rfl, rfl, ?_⟩
  intro h
  have hp := congrArg RenderState.program h
  simp [runState, RenderText, stateStep, RenderState.sample] at hp

/-- Claim C15, amended. On a zero-length string `RenderText` issues no draw
call and leaves the cursor and the glyph cache as they were, but it still
emits its six state-setting calls (`glUseProgram(shader)`, the `textColor`
uniform, `glActiveTexture(GL_TEXTURE0)`, `glBindVertexArray(VAO)`,
`glBindVertexArray(0)`, `glBindTexture(GL_TEXTURE_2D, 0)`); afterwards the
current program is the text shader, `textColor` holds the colour of the
caller, texture unit 0 is active and vertex array 0 and texture 0 are bound. -/
theorem C15_empty_string_effect (m : GlyphMap) (VAO VBO shader : Nat) (x0 y s : ℚ)
    (color : Vec3) (st : RenderState) :
    (RenderText m VAO VBO shader [] x0 y s color).cmds
      = [ GLCmd.useProgram shader,
          GLCmd.uniform3f shader "textColor" color.x color.y color.z,
          GLCmd.activeTexture 0,
          GLCmd.bindVertexArray VAO,
          GLCmd.bindVertexArray 0,
          GLCmd.bindTexture 0 ] ∧
    drawCommands (RenderText m VAO VBO shader [] x0 y s color).cmds = [] ∧
    (RenderText m VAO VBO shader [] x0 y s color).Characters = m ∧
    (RenderText m VAO VBO shader [] x0 y s color).x = x0 ∧
    runState st (RenderText m VAO VBO shader [] x0 y s color).cmds
      = { program := shader,
          uniforms := setUniform st.uniforms shader "textColor" [color.x, color.y, color.z],
          activeTexture := 0,
          vertexArray := 0,
          texture := 0 } ∧
    getUniform (runState st (RenderText m VAO VBO shader [] x0 y s color).cmds).uniforms
      shader "textColor" = some [color.x, color.y, color.z] := by
  refine ⟨rfl, ?_, rfl, rfl, rfl, ?_⟩
  · simp [RenderText, drawCommands]
  · simp [RenderText, runState, stateStep, setUniform, getUniform]

/-- Claim C17. In the product-grid program `RenderRoundedRect(x, y, width,
height, radius, color)` has exactly the outcome of `RenderRect(x, y, width,
height, color)`, the same calls in the same order, so its output is the same
for every radius. -/
theorem C17_store_rounded_rect_is_rect (gen : List Nat → Nat) (rectShaderProgram : Nat)
    (objs : GLObjects) (x y width height radius : ℚ) (color : Vec3) :
    Store.RenderRoundedRect gen rectShaderProgram objs x y width height radius color
      = Store.RenderRect gen rectShaderProgram objs x y width height color ∧
    (Store.RenderRoundedRect gen rectShaderProgram objs x y width height radius color).cmds
      = (Store.RenderRect gen rectShaderProgram objs x y width height color).cmds ∧
    ∀ radius2 : ℚ,
      Store.RenderRoundedRect gen rectShaderProgram objs x y width height radius2 color
        = Store.RenderRoundedRect gen rectShaderProgram objs x y width height radius color :=
  ⟨rfl, rfl, fun _ => rfl⟩

theorem erase_append_fresh (l : List Nat) (a : Nat) (h : a ∉ l) : (l ++ [a]).erase a = l := by
  rw [List.erase_append_right _ h]
  simp

theorem erase_two_fresh (l : List Nat) (b e : Nat) (hb : b ∉ l) (he : e ∉ l ++ [b]) :
    ((l ++ [b] ++ [e]).erase b).erase e = l := by
  have hbe : b ≠ e := by
    intro h
    apply he
    simp [h]
  have hel : e ∉ l := fun h => he (List.mem_append_left _ h)
  rw [List.append_assoc, List.erase_append_right _ hb]
  have h1 : ([b] ++ [e]).erase b = [e] := by simp
  rw [h1]
  exact erase_append_fresh l e hel

theorem Store.RenderRect_createsAndDeletes (gen : List Nat → Nat) (hfresh : FreshGen gen)
    (rectShaderProgram : Nat) (objs : GLObjects) (x y width height : ℚ) (color : Vec3) :
    CreatesAndDeletes objs (Store.RenderRect gen rectShaderProgram objs x y width height color)
      (gen objs.vertexArrays) (gen objs.buffers) (gen (objs.buffers ++ [gen objs.buffers])) := by
  have ha := hfresh objs.vertexArrays
  have hb := hfresh objs.buffers
  have he := hfresh (objs.buffers ++ [gen objs.buffers])
  refine ⟨rfl, rfl, rfl, rfl, ?_, ?_⟩
  · simp only [Store.RenderRect, trackObjects, List.foldl_cons, List.foldl_nil, trackStep]
    rw [erase_append_fresh _ _ ha, erase_two_fresh _ _ _ hb he]
  · simp only [Store.RenderRect]
    rw [erase_append_fresh _ _ ha, erase_two_fresh _ _ _ hb he]

theorem RenderTexture_createsAndDeletes (gen : List Nat → Nat) (hfresh : FreshGen gen)
    (objs : GLObjects) (textureShader texture : Nat) (x y width height : ℚ) :
    CreatesAndDeletes objs (RenderTexture gen objs textureShader texture x y width height)
      (gen objs.vertexArrays) (gen objs.buffers) (gen (objs.buffers ++ [gen objs.buffers])) := by
  have ha := hfresh objs.vertexArrays
  have hb := hfresh objs.buffers
  have he := hfresh (objs.buffers ++ [gen objs.buffers])
  refine ⟨rfl, rfl, rfl, rfl, ?_, ?_⟩
  · simp only [RenderTexture, trackObjects, List.foldl_cons, List.foldl_nil, trackStep]
    rw [erase_append_fresh _ _ ha, erase_two_fresh _ _ _ hb he]
  · simp only [RenderTexture]
    rw [erase_append_fresh _ _ ha, erase_two_fresh _ _ _ hb he]

theorem RenderTextureRect_createsAndDeletes (gen : List Nat → Nat) (hfresh : FreshGen gen)
    (rectShaderProgram : Nat) (objs : GLObjects) (texture : Nat) (x y width height : ℚ) :
    CreatesAndDeletes objs
      (RenderTextureRect gen rectShaderProgram objs texture x y width height)
      (gen objs.vertexArrays) (gen objs.buffers) (gen (objs.buffers ++ [gen objs.buffers])) := by
  have ha := hfresh objs.vertexArrays
  have hb := hfresh objs.buffers
  have he := hfresh (objs.buffers ++ [gen objs.buffers])
  refine ⟨rfl, rfl, rfl, rfl, ?_, ?_⟩
  · simp only [RenderTextureRect, trackObjects, List.foldl_cons, List.foldl_nil, trackStep]
    rw [erase_append_fresh _ _ ha, erase_two_fresh _ _ _ hb he]
  · simp only [RenderTextureRect]
    rw [erase_append_fresh _ _ ha, erase_two_fresh _ _ _ hb he]

/-- Claim C18. With the vertex-array and buffer names in use as explicit state
and a GL that hands out unused names, each call of `RenderRect` (either
program) and of either `RenderTexture` overload generates exactly one vertex
array and two buffers, deletes exactly those three before returning, and
leaves the names in use as they were before the call. -/
theorem C18_buffers_created_and_deleted (gen : List Nat → Nat) (hfresh : FreshGen gen)
    (objs : GLObjects) (rectShaderProgram textureShader texture : Nat)
    (x y width height : ℚ) (color : Vec3) :
    CreatesAndDeletes objs (Chat.RenderRect gen rectShaderProgram objs x y width height color)
      (gen objs.vertexArrays) (gen objs.buffers) (gen (objs.buffers ++ [gen objs.buffers])) ∧
    CreatesAndDeletes objs (Store.RenderRect gen rectShaderProgram objs x y width height color)
      (gen objs.vertexArrays) (gen objs.buffers) (gen (objs.buffers ++ [gen objs.buffers])) ∧
    CreatesAndDeletes objs (RenderTexture gen objs textureShader texture x y width height)
      (gen objs.vertexArrays) (gen objs.buffers) (gen (objs.buffers ++ [gen objs.buffers])) ∧
    CreatesAndDeletes objs
      (RenderTextureRect gen rectShaderProgram objs texture x y width height)
      (gen objs.vertexArrays) (gen objs.buffers) (gen (objs.buffers ++ [gen objs.buffers])) :=
  ⟨Store.RenderRect_createsAndDeletes gen hfresh rectShaderProgram objs x y width height color,
    Store.RenderRect_createsAndDeletes gen hfresh rectShaderProgram objs x y width height color,
    RenderTexture_createsAndDeletes gen hfresh objs textureShader texture x y width height,
    RenderTextureRect_createsAndDeletes gen hfresh rectShaderProgram objs texture x y width
      height⟩

/-- Witness for C18: the sequential name generator, with two vertex arrays and
three buffers in use before the call. -/
theorem C18_buffers_created_and_deleted_witness :
    FreshGen seqGen ∧
    (Chat.RenderRect seqGen 2 ⟨[1, 2], [1, 2, 3]⟩ 0 0 480 768 ⟨9 / 100, 13 / 100, 17 / 100⟩).objects
      = ⟨[1, 2], [1, 2, 3]⟩ ∧
    generatedBuffers
      (Chat.RenderRect seqGen 2 ⟨[1, 2], [1, 2, 3]⟩ 0 0 480 768
        ⟨9 / 100, 13 / 100, 17 / 100⟩).cmds = [4, 5] := by
  have h := (C18_buffers_created_and_deleted seqGen seqGen_fresh ⟨[1, 2], [1, 2, 3]⟩ 2 3 7
    0 0 480 768 ⟨9 / 100, 13 / 100, 17 / 100⟩).1
  refine ⟨seqGen_fresh, h.2.2.2.2.2, ?_⟩
  rw [h.2.1]
  simp [seqGen]

/-! ### Shader selection in RenderText -/

theorem useProgramCmds_append (l1 l2 : List GLCmd) :
    useProgramCmds (l1 ++ l2) = useProgramCmds l1 ++ useProgramCmds l2 := by
  induction l1 with
  | nil => rfl
  | cons c rest ih => cases c <;> simp [useProgramCmds, ih]

theorem uniformCmds_append (l1 l2 : List GLCmd) :
    uniformCmds (l1 ++ l2) = uniformCmds l1 ++ uniformCmds l2 := by
  induction l1 with
  | nil => rfl
  | cons c rest ih => cases c <;> simp [uniformCmds, ih]

theorem useProgramCmds_textCmds (VBO : Nat) (m : GlyphMap) (y scale : ℚ) (text : List Int) :
    ∀ x : ℚ, useProgramCmds (textCmds VBO m y scale text x) = [] := by
  induction text with
  | nil => intro x; rfl
  | cons c cs ih =>
    intro x
    simp only [textCmds, useProgramCmds_append, ih]
    rfl

theorem uniformCmds_textCmds (VBO : Nat) (m : GlyphMap) (y scale : ℚ) (text : List Int) :
    ∀ x : ℚ, uniformCmds (textCmds VBO m y scale text x) = [] := by
  induction text with
  | nil => intro x; rfl
  | cons c cs ih =>
    intro x
    simp only [textCmds, uniformCmds_append, ih]
    rfl

/-- Claim C19. For every string `RenderText` issues exactly one
`glUseProgram`, of the text shader, and exactly one uniform call, setting
`textColor` to the colour of the caller; these are its first two calls, so
both precede every draw call of the string. -/
theorem C19_shader_and_colour_once (m : GlyphMap) (VAO VBO shader : Nat) (text : List Int)
    (x0 y s : ℚ) (color : Vec3) :
    useProgramCmds (RenderText m VAO VBO shader text x0 y s color).cmds
      = [GLCmd.useProgram shader] ∧
    uniformCmds (RenderText m VAO VBO shader text x0 y s color).cmds
      = [GLCmd.uniform3f shader "textColor" color.x color.y color.z] ∧
    ∃ rest : List GLCmd,
      (RenderText m VAO VBO shader text x0 y s color).cmds
        = GLCmd.useProgram shader ::
            GLCmd.uniform3f shader "textColor" color.x color.y color.z :: rest ∧
      useProgramCmds rest = [] ∧ uniformCmds rest = [] ∧
      drawCommands rest = drawCommands (RenderText m VAO VBO shader text x0 y s color).cmds ∧
      drawCalls (RenderText m VAO VBO shader text x0 y s color).cmds
        = textDraws m y s text x0 := by
  refine ⟨?_, ?_, ?_⟩
  · rw [RenderText_cmds, useProgramCmds_append, useProgramCmds_append, useProgramCmds_textCmds]
    rfl
  · rw [RenderText_cmds, uniformCmds_append, uniformCmds_append, uniformCmds_textCmds]
    rfl
  · refine ⟨[GLCmd.activeTexture 0, GLCmd.bindVertexArray VAO] ++ textCmds VBO m y s text x0
      ++ [GLCmd.bindVertexArray 0, GLCmd.bindTexture 0], ?_, ?_, ?_, ?_, ?_⟩
    · rw [RenderText_cmds]
      simp
    · rw [useProgramCmds_append, useProgramCmds_append, useProgramCmds_textCmds]
      rfl
    · rw [uniformCmds_append, uniformCmds_append, uniformCmds_textCmds]
      rfl
    · rw [RenderText_cmds]
      simp [drawCommands]
    · exact drawCalls_RenderText m VAO VBO shader text x0 y s color

/-! ### The strings drawn and the cache -/

theorem ascii_frameTexts :
    ∀ str ∈ Chat.frameTexts ++ Store.frameTexts, ∀ c ∈ cstr str, 0 ≤ c ∧ c < 128 := by
  decide

/-- Claim C20. Every character of every string that either program passes to
`RenderText` (the literal labels, the time, name and message of the six chat
messages, the name and price of the eight products, `"Sold by "` followed by
the seller, and `"Add to Cart"`) has a code in `[0,128)`; hence, when all 128
codes rasterise, every lookup of such a character hits the cache built by the
loading loop. -/
theorem C20_drawn_codes_in_range :
    (∀ str ∈ Chat.frameTexts ++ Store.frameTexts, ∀ c ∈ cstr str, 0 ≤ c ∧ c < 128) ∧
    Chat.frameTexts.length = 27 ∧ Store.frameTexts.length = 44 ∧
    ∀ (face : FT_Face) (gen : List Nat → Nat) (textures : List Nat), AllRasterize face →
      ∀ str ∈ Chat.frameTexts ++ Store.frameTexts, ∀ c ∈ cstr str,
        ((loadAllGlyphs face gen textures).Characters.find c).isSome := by
  refine ⟨ascii_frameTexts, by decide, by decide, ?_⟩
  intro face gen textures hall str hs c hc
  obtain ⟨h0, h1⟩ := ascii_frameTexts str hs c hc
  unfold loadAllGlyphs
  rw [find_loadGlyphs face gen textures 128 (le_refl 128) c]
  have hr : 0 ≤ c ∧ c < ((128 : Nat) : Int) := ⟨h0, by exact_mod_cast h1⟩
  rw [if_pos hr]
  have hlt : c.toNat < 128 := by omega
  have := hall c.toNat hlt
  cases hf : face c.toNat with
  | none => rw [hf] at this; simp at this
  | some g => simp

/-- Witness for C20: a face in which every code rasterises; the first
character of `"Recherche..."` is found in the cache. -/
theorem C20_drawn_codes_in_range_witness :
    AllRasterize faceAll ∧
    ((loadAllGlyphs faceAll seqGen []).Characters.find 82).isSome := by
  have hall : AllRasterize faceAll := fun _ _ => rfl
  refine ⟨hall, ?_⟩
  exact C20_drawn_codes_in_range.2.2.2 faceAll seqGen [] hall "Recherche..."
    (by decide) 82 (by decide)

/-! ### RenderText over a concatenation, and the cache after a call -/

theorem foldl_renderChar_Characters (VBO : Nat) (y scale : ℚ) (text : List Int) :
    ∀ st : TextState,
      (text.foldl (renderChar VBO y scale) st).Characters = lookupAll st.Characters text := by
  induction text with
  | nil => intro st; rfl
  | cons c cs ih =>
    intro st
    simp only [List.foldl_cons, lookupAll]
    rw [ih]
    rfl

theorem RenderText_Characters (m : GlyphMap) (VAO VBO shader : Nat) (text : List Int)
    (x y scale : ℚ) (color : Vec3) :
    (RenderText m VAO VBO shader text x y scale color).Characters = lookupAll m text := by
  simp only [RenderText]
  rw [foldl_renderChar_Characters]

theorem lookupAll_append (m : GlyphMap) (s1 s2 : List Int) :
    lookupAll m (s1 ++ s2) = lookupAll (lookupAll m s1) s2 := by
  simp [lookupAll, List.foldl_append]

theorem lookupAll_cons (m : GlyphMap) (c : Int) (cs : List Int) :
    lookupAll m (c :: cs) = lookupAll (m.index c).2 cs := rfl

theorem glyph_lookupAll (text : List Int) :
    ∀ (m : GlyphMap) (k : Int), (lookupAll m text).glyph k = m.glyph k := by
  induction text with
  | nil => intro m k; rfl
  | cons c cs ih =>
    intro m k
    rw [lookupAll_cons, ih, GlyphMap.glyph_index]

theorem advance_congr_glyph (m m2 : GlyphMap) (s : ℚ) (h : ∀ k, m2.glyph k = m.glyph k)
    (c : Int) : advance m2 s c = advance m s c := by
  unfold advance
  rw [h c]

theorem textDraws_congr (m m2 : GlyphMap) (y s : ℚ) (h : ∀ k, m2.glyph k = m.glyph k)
    (text : List Int) : ∀ x : ℚ, textDraws m2 y s text x = textDraws m y s text x := by
  induction text with
  | nil => intro x; rfl
  | cons c cs ih =>
    intro x
    simp only [textDraws]
    rw [h c, advance_congr_glyph m m2 s h c, ih]

theorem textDraws_append (m : GlyphMap) (y s : ℚ) (s1 s2 : List Int) :
    ∀ x : ℚ, textDraws m y s (s1 ++ s2) x
      = textDraws m y s s1 x ++ textDraws m y s s2 (x + (s1.map (advance m s)).sum) := by
  induction s1 with
  | nil => intro x; simp [textDraws]
  | cons c cs ih =>
    intro x
    have hcons : textDraws m y s (c :: cs ++ s2) x
        = glyphDraw (m.glyph c) x y s :: textDraws m y s (cs ++ s2) (x + advance m s c) := rfl
    rw [hcons, ih]
    simp only [textDraws, List.map_cons, List.sum_cons, List.cons_append, add_assoc]

/-- Claim C21. For all strings `s1`, `s2`, every start `x0`, scale and cache,
the draw calls (texture bound and quad streamed) of `RenderText` on
`s1 ++ s2` from `x0` are those on `s1` from `x0` followed by those on `s2`
from the cursor reached after `s1`, run on the cache that the call on `s1`
leaves (or on the original cache: the draws are the same); the final cursors
and the final caches agree. -/
theorem C21_concatenation (m : GlyphMap) (VAO VBO shader : Nat) (s1 s2 : List Int)
    (x0 y s : ℚ) (color : Vec3) :
    drawCalls (RenderText m VAO VBO shader (s1 ++ s2) x0 y s color).cmds
      = drawCalls (RenderText m VAO VBO shader s1 x0 y s color).cmds ++
        drawCalls (RenderText (RenderText m VAO VBO shader s1 x0 y s color).Characters
          VAO VBO shader s2 (RenderText m VAO VBO shader s1 x0 y s color).x y s color).cmds ∧
    (RenderText m VAO VBO shader (s1 ++ s2) x0 y s color).x
      = (RenderText (RenderText m VAO VBO shader s1 x0 y s color).Characters
          VAO VBO shader s2 (RenderText m VAO VBO shader s1 x0 y s color).x y s color).x ∧
    (RenderText m VAO VBO shader (s1 ++ s2) x0 y s color).Characters
      = (RenderText (RenderText m VAO VBO shader s1 x0 y s color).Characters
          VAO VBO shader s2 (RenderText m VAO VBO shader s1 x0 y s color).x y s color).Characters ∧
    drawCalls (RenderText m VAO VBO shader (s1 ++ s2) x0 y s color).cmds
      = drawCalls (RenderText m VAO VBO shader s1 x0 y s color).cmds ++
        drawCalls (RenderText m VAO VBO shader s2
          (RenderText m VAO VBO shader s1 x0 y s color).x y s color).cmds ∧
    (RenderText m VAO VBO shader (s1 ++ s2) x0 y s color).x
      = (RenderText m VAO VBO shader s2
          (RenderText m VAO VBO shader s1 x0 y s color).x y s color).x := by
  have hg : ∀ k, (lookupAll m s1).glyph k = m.glyph k := glyph_lookupAll s1 m
  have hadv : (s2.map (advance (lookupAll m s1) s)) = s2.map (advance m s) := by
    apply List.map_congr_left
    intro c _
    exact advance_congr_glyph m (lookupAll m s1) s hg c
  refine ⟨?_, ?_, ?_, ?_, ?_⟩
  · simp only [drawCalls_RenderText, RenderText_Characters, RenderText_x]
    rw [textDraws_append, textDraws_congr m (lookupAll m s1) y s hg]
  · simp only [RenderText_Characters, RenderText_x]
    rw [hadv, List.map_append, List.sum_append, add_assoc]
  · simp only [RenderText_Characters]
    exact lookupAll_append m s1 s2
  · simp only [drawCalls_RenderText, RenderText_x]
    rw [textDraws_append]
  · simp only [RenderText_x]
    rw [List.map_append, List.sum_append, add_assoc]

theorem GlyphMap.find_index_ne (m : GlyphMap) (c k : Int) (h : k ≠ c) :
    (m.index c).2.find k = m.find k := by
  unfold GlyphMap.index
  cases hc : m.find c with
  | some w => rfl
  | none => exact GlyphMap.find_place_ne m c k Character.zero h

theorem GlyphMap.find_index_self (m : GlyphMap) (c : Int) (h : m.find c = none) :
    (m.index c).2.find c = some Character.zero := by
  unfold GlyphMap.index
  rw [h]
  exact GlyphMap.find_place_self m c Character.zero h

theorem GlyphMap.size_index_of_none (m : GlyphMap) (c : Int) (h : m.find c = none) :
    (m.index c).2.size = m.size + 1 := by
  unfold GlyphMap.index GlyphMap.size
  rw [h]
  exact GlyphMap.length_place m c Character.zero

theorem find_lookupAll (text : List Int) :
    ∀ (m : GlyphMap) (k : Int),
      (lookupAll m text).find k
        = match m.find k with
          | some v => some v
          | none => if k ∈ text then some Character.zero else none := by
  induction text with
  | nil =>
    intro m k
    cases h : m.find k <;> simp [lookupAll, h]
  | cons c cs ih =>
    intro m k
    rw [lookupAll_cons, ih]
    cases hk : m.find k with
    | some v =>
      rw [GlyphMap.find_index_of_find m c k v hk]
    | none =>
      by_cases hkc : k = c
      · subst hkc
        rw [GlyphMap.find_index_self m k hk]
        simp
      · rw [GlyphMap.find_index_ne m c k hkc, hk]
        simp [hkc]

theorem missingChars_cons_of_some (m : GlyphMap) (c : Int) (cs : List Int) (v : Character)
    (h : m.find c = some v) : missingChars m (c :: cs) = missingChars m cs := by
  ext k
  simp only [missingChars, Finset.mem_filter, List.mem_toFinset, List.mem_cons]
  constructor
  · rintro ⟨hk | hk, hn⟩
    · rw [hk, h] at hn
      cases hn
    · exact ⟨hk, hn⟩
  · rintro ⟨hk, hn⟩
    exact ⟨Or.inr hk, hn⟩

theorem missingChars_cons_of_none (m : GlyphMap) (c : Int) (cs : List Int)
    (h : m.find c = none) :
    missingChars m (c :: cs) = insert c (missingChars (m.index c).2 cs) ∧
    c ∉ missingChars (m.index c).2 cs := by
  constructor
  · ext k
    simp only [missingChars, Finset.mem_filter, List.mem_toFinset, List.mem_cons,
      Finset.mem_insert]
    by_cases hkc : k = c
    · subst hkc
      simp [h]
    · rw [GlyphMap.find_index_ne m c k hkc]
      simp [hkc]
  · simp only [missingChars, Finset.mem_filter, List.mem_toFinset, not_and]
    intro _
    rw [GlyphMap.find_index_self m c h]
    simp

theorem size_lookupAll (text : List Int) :
    ∀ m : GlyphMap, (lookupAll m text).size = m.size + (missingChars m text).card := by
  induction text with
  | nil => intro m; simp [lookupAll, missingChars]
  | cons c cs ih =>
    intro m
    rw [lookupAll_cons, ih]
    cases hc : m.find c with
    | some v =>
      rw [GlyphMap.index_snd_of_find m c v hc, missingChars_cons_of_some m c cs v hc]
    | none =>
      obtain ⟨h1, h2⟩ := missingChars_cons_of_none m c cs hc
      rw [h1, Finset.card_insert_of_not_mem h2, GlyphMap.size_index_of_none m c hc]
      omega

/-- Claim C22. After `RenderText` returns, the key set of the cache is the old
key set united with the characters of the string; every key added maps to the
all-zero `Character`; every entry present before is unchanged; and the cache
size has grown by the number of distinct characters of the string that were
missing. -/
theorem C22_lookup_inserts (m : GlyphMap) (VAO VBO shader : Nat) (text : List Int)
    (x0 y s : ℚ) (color : Vec3) :
    (∀ k : Int, k ∈ (RenderText m VAO VBO shader text x0 y s color).Characters.keys ↔
      (k ∈ m.keys ∨ k ∈ text)) ∧
    (∀ k : Int, k ∉ m.keys → k ∈ text →
      (RenderText m VAO VBO shader text x0 y s color).Characters.find k
        = some ⟨0, ⟨0, 0⟩, ⟨0, 0⟩, 0⟩) ∧
    (∀ (k : Int) (v : Character), m.find k = some v →
      (RenderText m VAO VBO shader text x0 y s color).Characters.find k = some v) ∧
    (RenderText m VAO VBO shader text x0 y s color).Characters.size
      = m.size + (missingChars m text).card := by
  rw [RenderText_Characters]
  refine ⟨?_, ?_, ?_, size_lookupAll text m⟩
  · intro k
    rw [← GlyphMap.find_isSome_iff_mem_keys, ← GlyphMap.find_isSome_iff_mem_keys,
      find_lookupAll]
    cases hk : m.find k with
    | some v => simp
    | none =>
      by_cases hm : k ∈ text <;> simp [hm]
  · intro k hk hm
    have hnone : m.find k = none := by
      cases h : m.find k with
      | none => rfl
      | some v =>
        exact absurd ((GlyphMap.find_isSome_iff_mem_keys m k).mp (by simp [h])) hk
    rw [find_lookupAll, hnone]
    simp [hm, Character.zero]
  · intro k v hk
    rw [find_lookupAll, hk]

/-- Witness for C22: the string with codes 66, 67, 66 against a cache that
holds only the code 65 adds the two keys 66 and 67. -/
theorem C22_lookup_inserts_witness :
    (66 : Int) ∉ GlyphMap.keys [(65, ⟨7, ⟨10, 12⟩, ⟨1, 11⟩, 2048⟩)] ∧
    (66 : Int) ∈ ([66, 67, 66] : List Int) ∧
    (RenderText [(65, ⟨7, ⟨10, 12⟩, ⟨1, 11⟩, 2048⟩)] 1 2 3 [66, 67, 66] 5 100 1
        ⟨1, 1, 1⟩).Characters.find 66 = some ⟨0, ⟨0, 0⟩, ⟨0, 0⟩, 0⟩ ∧
    (RenderText [(65, ⟨7, ⟨10, 12⟩, ⟨1, 11⟩, 2048⟩)] 1 2 3 [66, 67, 66] 5 100 1
        ⟨1, 1, 1⟩).Characters.size = 3 := by
  have h := C22_lookup_inserts [(65, ⟨7, ⟨10, 12⟩, ⟨1, 11⟩, 2048⟩)] 1 2 3 [66, 67, 66] 5 100 1
    ⟨1, 1, 1⟩
  have hk : (66 : Int) ∉ GlyphMap.keys [(65, ⟨7, ⟨10, 12⟩, ⟨1, 11⟩, 2048⟩)] := by
    simp [GlyphMap.keys]
  have hm : (66 : Int) ∈ ([66, 67, 66] : List Int) := by simp
  refine ⟨hk, hm, h.2.1 66 hk hm, ?_⟩
  rw [h.2.2.2]
  decide

/-! ### The return value of CreateShaderProgram -/

/-- Claim C23. When program creation yields a non-zero handle,
`CreateShaderProgram` returns 0 if and only if the vertex shader failed to
compile, the fragment shader failed to compile, or the program failed to
link; when all three succeed it returns the handle of the created program. -/
theorem C23_zero_iff_failure (vsrc fsrc : String) (b : Chat.ShaderBuild)
    (hp : b.shaderProgram ≠ 0) :
    ((Chat.CreateShaderProgram vsrc fsrc b).handle = 0 ↔
      (b.vertexOk = false ∨ b.fragmentOk = false ∨ b.linkOk = false)) ∧
    (b.vertexOk = true → b.fragmentOk = true → b.linkOk = true →
      (Chat.CreateShaderProgram vsrc fsrc b).handle = b.shaderProgram) := by
  obtain ⟨vs, fs, pr, vo, fo, lo⟩ := b
  simp only at hp
  cases vo <;> cases fo <;> cases lo <;> simp [Chat.CreateShaderProgram, hp]

/-- Witness for C23: a build whose program object has the handle 3. -/
theorem C23_zero_iff_failure_witness :
    Chat.goodBuild.shaderProgram ≠ 0 ∧
    (Chat.CreateShaderProgram "roundedRectVertexShader" "roundedRectFragmentShader"
      Chat.goodBuild).handle = Chat.goodBuild.shaderProgram ∧
    Chat.failedBuild.shaderProgram ≠ 0 ∧
    (Chat.CreateShaderProgram "roundedRectVertexShader" "roundedRectFragmentShader"
      Chat.failedBuild).handle = 0 :=
  have hg : Chat.goodBuild.shaderProgram ≠ 0 := by decide
  have hf : Chat.failedBuild.shaderProgram ≠ 0 := by decide
  ⟨hg,
    (C23_zero_iff_failure "roundedRectVertexShader" "roundedRectFragmentShader"
      Chat.goodBuild hg).2 rfl rfl rfl,
    hf,
    (C23_zero_iff_failure "roundedRectVertexShader" "roundedRectFragmentShader"
      Chat.failedBuild hf).1.mpr (Or.inl rfl)⟩

/-! ### The pixel format of an uploaded image -/

/-- Claim C25. In `LoadTexture` and `LoadTextureCircular` the upload format is
assigned only for the channel counts 1, 3 and 4: one channel selects `GL_RED`,
three `GL_RGB`, four `GL_RGBA`, and for any other channel count, such as 2, no
format is assigned (`none`); the format chosen this way is the one passed to
`glTexImage2D` for every successfully decoded image. -/
theorem C25_upload_format (gen : List Nat → Nat) (textures : List Nat) (path : String)
    (img : Image) :
    selectFormat 1 = some "GL_RED" ∧ selectFormat 3 = some "GL_RGB" ∧
    selectFormat 4 = some "GL_RGBA" ∧ selectFormat 2 = none ∧
    (∀ n : Int, n ≠ 1 → n ≠ 3 → n ≠ 4 → selectFormat n = none) ∧
    (∀ n : Int, (selectFormat n).isSome ↔ (n = 1 ∨ n = 3 ∨ n = 4)) ∧
    uploadFormats (LoadTexture gen textures path (some img)).cmds
      = [selectFormat img.nrComponents] ∧
    uploadFormats (Chat.LoadTextureCircular gen textures path (some img)).cmds
      = [selectFormat img.nrComponents] := by
  refine ⟨rfl, rfl, rfl, rfl, ?_, ?_, rfl, rfl⟩
  · intro n h1 h3 h4
    simp [selectFormat, h1, h3, h4]
  · intro n
    by_cases h1 : n = 1
    · simp [selectFormat, h1]
    · by_cases h3 : n = 3
      · simp [selectFormat, h3]
      · by_cases h4 : n = 4
        · simp [selectFormat, h4]
        · simp [selectFormat, h1, h3, h4]

/-- Witness for C25: a decoded image with two channels gets no format. -/
theorem C25_upload_format_witness :
    (2 : Int) ≠ 1 ∧ (2 : Int) ≠ 3 ∧ (2 : Int) ≠ 4 ∧
    uploadFormats (LoadTexture seqGen [1, 2, 3] "C:/opengl/images/face1.png"
      (some ⟨64, 64, 2, []⟩)).cmds = [none] := by
  have h := C25_upload_format seqGen [1, 2, 3] "C:/opengl/images/face1.png" ⟨64, 64, 2, []⟩
  refine ⟨by decide, by decide, by decide, ?_⟩
  rw [h.2.2.2.2.2.2.1]
  exact congrArg (fun f => [f]) (h.2.2.2.2.1 2 (by decide) (by decide) (by decide))

/-! ### The rounded-rectangle fragment shader -/

theorem le_sqrt_sum_left (a b : ℝ) (ha : 0 ≤ a) : a ≤ Real.sqrt (a ^ 2 + b ^ 2) := by
  have h : a ^ 2 ≤ a ^ 2 + b ^ 2 := by nlinarith [sq_nonneg b]
  calc a = |a| := (abs_of_nonneg ha).symm
    _ ≤ Real.sqrt (a ^ 2 + b ^ 2) := Real.abs_le_sqrt h

theorem le_sqrt_sum_right (a b : ℝ) (hb : 0 ≤ b) : b ≤ Real.sqrt (a ^ 2 + b ^ 2) := by
  have h : b ^ 2 ≤ a ^ 2 + b ^ 2 := by nlinarith [sq_nonneg a]
  calc b = |b| := (abs_of_nonneg hb).symm
    _ ≤ Real.sqrt (a ^ 2 + b ^ 2) := Real.abs_le_sqrt h

theorem roundedBoxSDF_nonpos (cx cy sx sy r : ℝ) (hr : 0 ≤ r)
    (hd : roundedBoxSDF Real.sqrt (cx, cy) (sx, sy) r ≤ 0) : |cx| ≤ sx ∧ |cy| ≤ sy := by
  simp only [roundedBoxSDF] at hd
  have hL1 := le_sqrt_sum_left (max (|cx| - sx + r) 0) (max (|cy| - sy + r) 0) (le_max_right _ _)
  have hL2 := le_sqrt_sum_right (max (|cx| - sx + r) 0) (max (|cy| - sy + r) 0) (le_max_right _ _)
  have hL0 := Real.sqrt_nonneg (max (|cx| - sx + r) 0 ^ 2 + max (|cy| - sy + r) 0 ^ 2)
  have hx1 := le_max_left (|cx| - sx + r) 0
  have hy1 := le_max_left (|cy| - sy + r) 0
  constructor
  · rcases le_or_lt (|cx| - sx + r) 0 with hq | hq
    · linarith
    · have hm : min (max (|cx| - sx + r) (|cy| - sy + r)) 0 = 0 :=
        min_eq_right (le_trans hq.le (le_max_left _ _))
      rw [hm] at hd
      linarith
  · rcases le_or_lt (|cy| - sy + r) 0 with hq | hq
    · linarith
    · have hm : min (max (|cx| - sx + r) (|cy| - sy + r)) 0 = 0 :=
        min_eq_right (le_trans hq.le (le_max_right _ _))
      rw [hm] at hd
      linarith

theorem roundedRectFragment_kept_iff (uSize uPosition : ℝ × ℝ) (uRadius : ℝ) (uColor : ℝ × ℝ × ℝ)
    (pixelCoord : ℝ × ℝ) :
    roundedRectFragment Real.sqrt uSize uPosition uRadius uColor pixelCoord ≠ none ↔
      roundedBoxSDF Real.sqrt
        (pixelCoord.1 - (uPosition.1 + uSize.1 / 2), pixelCoord.2 - (uPosition.2 + uSize.2 / 2))
        (uSize.1 / 2, uSize.2 / 2) uRadius ≤ 0 := by
  simp only [roundedRectFragment]
  split_ifs with h
  · simp only [ne_eq, not_true_eq_false, false_iff, not_le]
    exact h
  · simp only [ne_eq, reduceCtorEq, not_false_eq_true, true_iff]
    exact not_lt.mp h

/-- Claim C24. Reading `roundedRectFragmentShader` over the real numbers: for
every position `(x, y)`, size `(width, height)` and radius `>= 0`, a pixel
coordinate `p` that is not discarded, that is with
`roundedBoxSDF(p - center, size/2, radius) <= 0` for
`center = position + size/2`, satisfies `x <= p.x <= x + width` and
`y <= p.y <= y + height`. -/
theorem C24_shape_inside_rectangle (x y width height radius : ℝ) (color : ℝ × ℝ × ℝ)
    (px py : ℝ) (hr : 0 ≤ radius) :
    (roundedBoxSDF Real.sqrt (px - (x + width / 2), py - (y + height / 2))
        (width / 2, height / 2) radius ≤ 0 →
      x ≤ px ∧ px ≤ x + width ∧ y ≤ py ∧ py ≤ y + height) ∧
    (roundedRectFragment Real.sqrt (width, height) (x, y) radius color (px, py) ≠ none →
      x ≤ px ∧ px ≤ x + width ∧ y ≤ py ∧ py ≤ y + height) := by
  have key : roundedBoxSDF Real.sqrt (px - (x + width / 2), py - (y + height / 2))
        (width / 2, height / 2) radius ≤ 0 →
      x ≤ px ∧ px ≤ x + width ∧ y ≤ py ∧ py ≤ y + height := by
    intro hd
    obtain ⟨h1, h2⟩ := roundedBoxSDF_nonpos _ _ _ _ radius hr hd
    rw [abs_le] at h1 h2
    refine ⟨?_, ?_, ?_, ?_⟩ <;> linarith [h1.1, h1.2, h2.1, h2.2]
  refine ⟨key, ?_⟩
  intro hk
  exact key ((roundedRectFragment_kept_iff (width, height) (x, y) radius color (px, py)).mp hk)

/-- Witness for C24: the pixel `(104, 67)` lies on the rounded corner of the
rectangle at `(10, 20)` of size `100 x 50` with radius 15 (distance 0). -/
theorem C24_shape_inside_rectangle_witness :
    (0 : ℝ) ≤ 15 ∧
    roundedBoxSDF Real.sqrt ((104 : ℝ) - (10 + 100 / 2), (67 : ℝ) - (20 + 50 / 2))
        (100 / 2, 50 / 2) 15 = 0 ∧
    (10 : ℝ) ≤ 104 ∧ (104 : ℝ) ≤ 10 + 100 ∧ (20 : ℝ) ≤ 67 ∧ (67 : ℝ) ≤ 20 + 50 := by
  have hs : Real.sqrt (225 : ℝ) = 15 := by
    rw [show (225 : ℝ) = 15 ^ 2 by norm_num]
    exact Real.sqrt_sq (by norm_num)
  have hd : roundedBoxSDF Real.sqrt ((104 : ℝ) - (10 + 100 / 2), (67 : ℝ) - (20 + 50 / 2))
      (100 / 2, 50 / 2) 15 = 0 := by
    simp only [roundedBoxSDF]
    norm_num
    rw [hs]
    norm_num
  exact ⟨by norm_num, hd,
    (C24_shape_inside_rectangle 10 20 100 50 15 (1, 1, 1) 104 67 (by norm_num)).1 hd.le⟩

/-! ### RenderText with rounded float operations -/

theorem renderCharF_id (VBO : Nat) (y scale : ℚ) (st : TextState) (c : Int) :
    renderCharF id VBO y scale st c = renderChar VBO y scale st c := rfl

theorem RenderTextF_id (m : GlyphMap) (VAO VBO shader : Nat) (text : List Int)
    (x y scale : ℚ) (color : Vec3) :
    RenderTextF id m VAO VBO shader text x y scale color
      = RenderText m VAO VBO shader text x y scale color := by
  have h : renderCharF id VBO y scale = renderChar VBO y scale := by
    funext st c
    exact renderCharF_id VBO y scale st c
  simp only [RenderTextF, RenderText, h]

theorem foldl_renderCharF (fl : ℚ → ℚ) (VBO : Nat) (y scale : ℚ) (m : GlyphMap)
    (text : List Int) :
    ∀ st : TextState, (∀ k, st.Characters.glyph k = m.glyph k) →
      (text.foldl (renderCharF fl VBO y scale) st).x
        = text.foldl (fun x c => nextCursorF fl (m.glyph c) x scale) st.x ∧
      (text.foldl (renderCharF fl VBO y scale) st).cmds
        = st.cmds ++ textCmdsF fl VBO m y scale text st.x := by
  induction text with
  | nil => intro st _; simp [textCmdsF]
  | cons c cs ih =>
    intro st h
    have hinv : ∀ k, (renderCharF fl VBO y scale st c).Characters.glyph k = m.glyph k := by
      intro k
      simp only [renderCharF]
      rw [GlyphMap.glyph_index, h]
    obtain ⟨hx, hc⟩ := ih (renderCharF fl VBO y scale st c) hinv
    have hch : (st.Characters.index c).1 = m.glyph c := by
      rw [GlyphMap.index_fst, h]
    refine ⟨?_, ?_⟩
    · simp only [List.foldl_cons]
      rw [hx]
      simp only [renderCharF, hch]
    · simp only [List.foldl_cons]
      rw [hc]
      simp only [renderCharF, hch, textCmdsF, List.append_assoc]

theorem RenderTextF_x (fl : ℚ → ℚ) (m : GlyphMap) (VAO VBO shader : Nat) (text : List Int)
    (x y scale : ℚ) (color : Vec3) :
    (RenderTextF fl m VAO VBO shader text x y scale color).x
      = text.foldl (fun a c => nextCursorF fl (m.glyph c) a scale) x := by
  simp only [RenderTextF]
  exact (foldl_renderCharF fl VBO y scale m text _ (fun _ => rfl)).1

theorem RenderTextF_cmds (fl : ℚ → ℚ) (m : GlyphMap) (VAO VBO shader : Nat) (text : List Int)
    (x y scale : ℚ) (color : Vec3) :
    (RenderTextF fl m VAO VBO shader text x y scale color).cmds
      = [ GLCmd.useProgram shader,
          GLCmd.uniform3f shader "textColor" color.x color.y color.z,
          GLCmd.activeTexture 0,
          GLCmd.bindVertexArray VAO ]
        ++ textCmdsF fl VBO m y scale text x
        ++ [GLCmd.bindVertexArray 0, GLCmd.bindTexture 0] := by
  simp only [RenderTextF]
  rw [(foldl_renderCharF fl VBO y scale m text _ (fun _ => rfl)).2]

theorem replay_textCmdsF (fl : ℚ → ℚ) (VBO : Nat) (m : GlyphMap) (y scale : ℚ)
    (text : List Int) :
    ∀ (x : ℚ) (r : Replay),
      ((textCmdsF fl VBO m y scale text x).foldl replayStep r).draws
        = r.draws ++ textDrawsF fl m y scale text x := by
  induction text with
  | nil => intro x r; simp [textCmdsF, textDrawsF]
  | cons c cs ih =>
    intro x r
    simp only [textCmdsF, textDrawsF, List.foldl_append]
    rw [ih]
    simp [glyphCmdsF, replayStep, glyphDrawF]

theorem drawCalls_RenderTextF (fl : ℚ → ℚ) (m : GlyphMap) (VAO VBO shader : Nat)
    (text : List Int) (x y scale : ℚ) (color : Vec3) :
    drawCalls (RenderTextF fl m VAO VBO shader text x y scale color).cmds
      = textDrawsF fl m y scale text x := by
  rw [RenderTextF_cmds]
  unfold drawCalls
  rw [List.foldl_append, replay_draws_tail, List.foldl_append, replay_textCmdsF]
  simp [replayStep]

theorem cursorAtF_zero (fl : ℚ → ℚ) (m : GlyphMap) (text : List Int) (x0 scale : ℚ) :
    cursorAtF fl m text x0 scale 0 = x0 := by
  simp [cursorAtF]

theorem cursorAtF_cons_succ (fl : ℚ → ℚ) (m : GlyphMap) (c : Int) (cs : List Int)
    (x0 scale : ℚ) (k : Nat) :
    cursorAtF fl m (c :: cs) x0 scale (k + 1)
      = cursorAtF fl m cs (nextCursorF fl (m.glyph c) x0 scale) scale k := by
  simp [cursorAtF]

theorem textDrawsF_getElem? (fl : ℚ → ℚ) (m : GlyphMap) (y scale : ℚ) (text : List Int) :
    ∀ (x : ℚ) (k : Nat) (c : Int), text[k]? = some c →
      (textDrawsF fl m y scale text x)[k]?
        = some (glyphDrawF fl (m.glyph c) (cursorAtF fl m text x scale k) y scale) := by
  induction text with
  | nil => intro x k c h; simp at h
  | cons d ds ih =>
    intro x k c h
    cases k with
    | zero =>
      simp only [List.getElem?_cons_zero, Option.some.injEq] at h
      subst h
      simp [textDrawsF, cursorAtF_zero]
    | succ j =>
      simp only [List.getElem?_cons_succ] at h
      simp only [textDrawsF, List.getElem?_cons_succ, cursorAtF_cons_succ]
      exact ih _ j c h

theorem cursorAtF_succ (fl : ℚ → ℚ) (m : GlyphMap) (text : List Int) :
    ∀ (x0 scale : ℚ) (k : Nat) (c : Int), text[k]? = some c →
      cursorAtF fl m text x0 scale (k + 1)
        = nextCursorF fl (m.glyph c) (cursorAtF fl m text x0 scale k) scale := by
  induction text with
  | nil => intro x0 scale k c h; simp at h
  | cons d ds ih =>
    intro x0 scale k c h
    cases k with
    | zero =>
      simp only [List.getElem?_cons_zero, Option.some.injEq] at h
      subst h
      simp [cursorAtF]
    | succ j =>
      simp only [List.getElem?_cons_succ] at h
      rw [cursorAtF_cons_succ, cursorAtF_cons_succ]
      exact ih _ scale j c h

/-! ### Claims C2 and C5: the float arithmetic of the quad and of the advance -/

/-- Counterexample to C2: with the arguments of the call
`RenderText(shaderProgram, "Recherche...", 20, SCR_HEIGHT - 55, 0.45f, …)`
and a glyph of `R` with bearing (3, 33), size 25 by 33 and advance 1843, the
binary32 arithmetic of the code puts the left edge of the first quad at
11193549/524288 (21.350000381…) and its right edge at 4272947/131072
(32.599998474…), whereas `cursor + Bearing.x * scale` is 358193561/16777216
(21.349999964…) and `Size.x * scale` is not the difference of the two edges. -/
theorem C2_binary32_quad_differs :
    (cstr "Recherche...")[0]? = some 82 ∧
    ((drawCalls (RenderTextF roundToF32 cacheR 1 2 3 (cstr "Recherche...") 20 713 f045
        greyText).cmds)[0]?).map DrawCall.vertices
      = some [ [11193549 / 524288, 5962547 / 8192, 0, 0],
               [11193549 / 524288, 713, 0, 1],
               [4272947 / 131072, 713, 1, 1],
               [11193549 / 524288, 5962547 / 8192, 0, 0],
               [4272947 / 131072, 713, 1, 1],
               [4272947 / 131072, 5962547 / 8192, 1, 0] ] ∧
    cursorAt cacheR (cstr "Recherche...") 20 f045 0 + ((cacheR.glyph 82).Bearing.x : ℚ) * f045
      = 358193561 / 16777216 ∧
    (11193549 / 524288 : ℚ)
      ≠ cursorAt cacheR (cstr "Recherche...") 20 f045 0
          + ((cacheR.glyph 82).Bearing.x : ℚ) * f045 ∧
    (4272947 / 131072 - 11193549 / 524288 : ℚ) ≠ ((cacheR.glyph 82).Size.x : ℚ) * f045 := by
  decide!

/-- Claim C2, amended. For every string and every index `k`, the quad emitted
for the `k`-th character has the vertices `(xpos, ypos + h)`, `(xpos, ypos)`,
`(xpos + w, ypos)`, `(xpos + w, ypos + h)` with
`xpos = cursor_k + Bearing.x * scale`,
`ypos = y - (Size.y - Bearing.y) * scale`, `w = Size.x * scale`,
`h = Size.y * scale`, where `cursor_0 = x0`,
`cursor_(j+1) = cursor_j + (Advance_j >> 6) * scale`, `y` is the unchanged
origin, and every conversion to float, product, sum and difference is rounded
by the float arithmetic `fl` (binary32 in the code). In exact arithmetic
(`fl = id`, which is `RenderText`) these are the exact values of the formulas,
`(xpos, ypos)` and `(xpos + w, ypos + h)` are corners of the quad, and when
`w` and `h` are not negative every vertex lies in
`[xpos, xpos + w] x [ypos, ypos + h]`: the lower-left corner is `(xpos, ypos)`
and the width and height are `w` and `h`. -/
theorem C2_quad_geometry (fl : ℚ → ℚ) (m : GlyphMap) (VAO VBO shader : Nat)
    (text : List Int) (x0 y s : ℚ) (color : Vec3) (k : Nat) (c : Int)
    (hk : text[k]? = some c) :
    (∃ (d : DrawCall) (xpos ypos w h : ℚ),
      (drawCalls (RenderTextF fl m VAO VBO shader text x0 y s color).cmds)[k]? = some d ∧
      xpos = fl (cursorAtF fl m text x0 s k + fl (fl ((m.glyph c).Bearing.x : ℚ) * s)) ∧
      ypos = fl (y - fl (fl (((m.glyph c).Size.y - (m.glyph c).Bearing.y : Int) : ℚ) * s)) ∧
      w = fl (fl ((m.glyph c).Size.x : ℚ) * s) ∧
      h = fl (fl ((m.glyph c).Size.y : ℚ) * s) ∧
      d.vertices
        = [ [xpos, fl (ypos + h), 0, 0], [xpos, ypos, 0, 1], [fl (xpos + w), ypos, 1, 1],
            [xpos, fl (ypos + h), 0, 0], [fl (xpos + w), ypos, 1, 1],
            [fl (xpos + w), fl (ypos + h), 1, 0] ]) ∧
    cursorAtF fl m text x0 s 0 = x0 ∧
    cursorAtF fl m text x0 s (k + 1)
      = fl (cursorAtF fl m text x0 s k + fl (fl (((m.glyph c).Advance >>> 6 : Nat) : ℚ) * s)) ∧
    RenderTextF id m VAO VBO shader text x0 y s color
      = RenderText m VAO VBO shader text x0 y s color ∧
    (∃ d : DrawCall,
      (drawCalls (RenderText m VAO VBO shader text x0 y s color).cmds)[k]? = some d ∧
      d.vertices = quadVertices
        (cursorAt m text x0 s k + ((m.glyph c).Bearing.x : ℚ) * s)
        (y - (((m.glyph c).Size.y - (m.glyph c).Bearing.y : Int) : ℚ) * s)
        (((m.glyph c).Size.x : ℚ) * s) (((m.glyph c).Size.y : ℚ) * s) ∧
      [cursorAt m text x0 s k + ((m.glyph c).Bearing.x : ℚ) * s,
        y - (((m.glyph c).Size.y - (m.glyph c).Bearing.y : Int) : ℚ) * s, 0, 1] ∈ d.vertices ∧
      [cursorAt m text x0 s k + ((m.glyph c).Bearing.x : ℚ) * s + ((m.glyph c).Size.x : ℚ) * s,
        y - (((m.glyph c).Size.y - (m.glyph c).Bearing.y : Int) : ℚ) * s
          + ((m.glyph c).Size.y : ℚ) * s, 1, 0] ∈ d.vertices ∧
      (0 ≤ ((m.glyph c).Size.x : ℚ) * s → 0 ≤ ((m.glyph c).Size.y : ℚ) * s →
        ∀ v ∈ d.vertices,
          cursorAt m text x0 s k + ((m.glyph c).Bearing.x : ℚ) * s ≤ v.getD 0 0 ∧
          v.getD 0 0 ≤ cursorAt m text x0 s k + ((m.glyph c).Bearing.x : ℚ) * s
            + ((m.glyph c).Size.x : ℚ) * s ∧
          y - (((m.glyph c).Size.y - (m.glyph c).Bearing.y : Int) : ℚ) * s ≤ v.getD 1 0 ∧
          v.getD 1 0 ≤ y - (((m.glyph c).Size.y - (m.glyph c).Bearing.y : Int) : ℚ) * s
            + ((m.glyph c).Size.y : ℚ) * s)) := by
  refine ⟨⟨glyphDrawF fl (m.glyph c) (cursorAtF fl m text x0 s k) y s, _, _, _, _, ?_, rfl, rfl,
    rfl, rfl, rfl⟩, cursorAtF_zero fl m text x0 s, cursorAtF_succ fl m text x0 s k c hk,
    RenderTextF_id m VAO VBO shader text x0 y s color,
    ⟨glyphDraw (m.glyph c) (cursorAt m text x0 s k) y s, ?_, rfl, ?_, ?_, ?_⟩⟩
  · rw [drawCalls_RenderTextF]
    exact textDrawsF_getElem? fl m y s text x0 k c hk
  · rw [drawCalls_RenderText]
    exact textDraws_getElem? m y s text x0 k c hk
  · simp [glyphDraw, quadVertices]
  · simp [glyphDraw, quadVertices]
  · intro hw hh v hv
    simp only [glyphDraw, quadVertices, List.mem_cons, List.mem_singleton, List.not_mem_nil,
      or_false] at hv
    rcases hv with h | h | h | h | h | h <;> subst h <;>
      simp only [List.getD_cons_zero, List.getD_cons_succ] <;>
      refine ⟨?_, ?_, ?_, ?_⟩ <;> linarith

/-- Witness for the amended C2: the first character of `"Recherche..."` in
binary32, with the arguments of the call in `chat.cpp`. -/
theorem C2_quad_geometry_witness :
    (cstr "Recherche...")[0]? = some 82 ∧
    ∃ d : DrawCall,
      (drawCalls (RenderTextF roundToF32 cacheR 1 2 3 (cstr "Recherche...") 20 713 f045
        greyText).cmds)[0]? = some d ∧
      d.vertices
        = [ [11193549 / 524288, 5962547 / 8192, 0, 0],
            [11193549 / 524288, 713, 0, 1],
            [4272947 / 131072, 713, 1, 1],
            [11193549 / 524288, 5962547 / 8192, 0, 0],
            [4272947 / 131072, 713, 1, 1],
            [4272947 / 131072, 5962547 / 8192, 1, 0] ] := by
  have hk : (cstr "Recherche...")[0]? = some 82 := by decide
  obtain ⟨⟨d, xpos, ypos, w, h, h1, hx, hy, hw, hh, hv⟩, -⟩ := C2_quad_geometry roundToF32
    cacheR 1 2 3 (cstr "Recherche...") 20 713 f045 greyText 0 82 hk
  refine ⟨hk, d, h1, ?_⟩
  rw [hv, hx, hy, hw, hh]
  decide!

/-- Counterexample to C5: in the binary32 arithmetic of the code, the glyph
of `R` with advance 1843 at scale `0.45f` from `x = 20` leaves the cursor at
4272947/131072, a move of 12.599998474… and not `floor(1843 / 64) * 0.45f`
(12.599999666…); and a glyph with advance 2048 at scale 1.0 from `x = 0.1f`
moves the cursor by 4294967091/134217728 (31.9999985…), not by 32. -/
theorem C5_binary32_advance_differs :
    GlyphMap.find cacheR 82 = some ⟨7, ⟨25, 33⟩, ⟨3, 33⟩, 1843⟩ ∧
    (RenderTextF roundToF32 cacheR 1 2 3 [82] 20 713 f045 greyText).x = 4272947 / 131072 ∧
    (RenderTextF roundToF32 cacheR 1 2 3 [82] 20 713 f045 greyText).x - 20
      ≠ ((1843 / 64 : Nat) : ℚ) * f045 ∧
    GlyphMap.find cacheA 65 = some ⟨7, ⟨10, 12⟩, ⟨1, 11⟩, 2048⟩ ∧
    (RenderTextF roundToF32 cacheA 1 2 3 [65] f01 100 1 greyText).x - f01
      = 4294967091 / 134217728 ∧
    (RenderTextF roundToF32 cacheA 1 2 3 [65] f01 100 1 greyText).x - f01 ≠ 32 := by
  decide!

/-- Claim C5, amended. The stored `Advance` is in 1/64-pixel units and
`RenderText` converts it with a right shift by 6, which is `floor(a / 64)`:
for every cached glyph with advance `a` and every scale `s`, rendering that
single character leaves the cursor at `x0 + floor(a / 64) * s` computed in the
float arithmetic `fl` of the code (the conversion, the product and the sum
each rounded, to binary32 in the code); in exact arithmetic the cursor moves
by `floor(a / 64) * s`. For an advance of 2048 and scale 1.0 the binary32
cursor advances by exactly 32 whenever `x0 + 32` is a binary32 value. -/
theorem C5_advance_shift (fl : ℚ → ℚ) (m : GlyphMap) (VAO VBO shader : Nat) (c : Int)
    (ch : Character) (x0 y s : ℚ) (color : Vec3) (hc : m.find c = some ch) :
    (RenderTextF fl m VAO VBO shader [c] x0 y s color).x
        = fl (x0 + fl (fl ((ch.Advance / 64 : Nat) : ℚ) * s)) ∧
    ch.Advance >>> 6 = ch.Advance / 64 ∧
    RenderTextF id m VAO VBO shader [c] x0 y s color
      = RenderText m VAO VBO shader [c] x0 y s color ∧
    (RenderText m VAO VBO shader [c] x0 y s color).x - x0
        = ((ch.Advance / 64 : Nat) : ℚ) * s ∧
    (ch.Advance = 2048 → roundToF32 (x0 + 32) = x0 + 32 →
      (RenderTextF roundToF32 m VAO VBO shader [c] x0 y 1 color).x = x0 + 32) := by
  have hshift : ch.Advance >>> 6 = ch.Advance / 64 := by
    rw [Nat.shiftRight_eq_div_pow]
  have hg : m.glyph c = ch := by
    simp [GlyphMap.glyph, hc]
  have hx : ∀ (f : ℚ → ℚ) (t : ℚ), (RenderTextF f m VAO VBO shader [c] x0 y t color).x
      = f (x0 + f (f ((ch.Advance / 64 : Nat) : ℚ) * t)) := by
    intro f t
    rw [RenderTextF_x]
    simp only [List.foldl_cons, List.foldl_nil, nextCursorF, hg, hshift]
  refine ⟨hx fl s, hshift, RenderTextF_id m VAO VBO shader [c] x0 y s color, ?_, ?_⟩
  · rw [← RenderTextF_id, hx id s]
    simp
  · intro ha hrep
    rw [hx roundToF32 1, ha]
    have h32 : roundToF32 (roundToF32 ((2048 / 64 : Nat) : ℚ) * 1) = 32 := by decide!
    rw [h32, hrep]

/-- Witness for the amended C5: the character `A` (code 65) with advance 2048
at scale 1.0 from `x0 = 5`, in binary32. -/
theorem C5_advance_shift_witness :
    GlyphMap.find cacheA 65 = some ⟨7, ⟨10, 12⟩, ⟨1, 11⟩, 2048⟩ ∧
    roundToF32 (5 + 32) = 5 + 32 ∧
    (RenderTextF roundToF32 cacheA 1 2 3 [65] 5 100 1 ⟨1, 1, 1⟩).x = 5 + 32 :=
  have hr : roundToF32 (5 + 32) = 5 + 32 := by decide!
  ⟨rfl, hr, (C5_advance_shift roundToF32 cacheA 1 2 3 65 ⟨7, ⟨10, 12⟩, ⟨1, 11⟩, 2048⟩ 5 100 1
    ⟨1, 1, 1⟩ rfl).2.2.2.2 rfl hr⟩

end OpenGLUI
